import Mathlib

/-!
Verification development for the yove user-mode RISC-V (RV32IMAC) emulator.

The Rust sources are shallowly embedded:

* machine integers are modelled as Nat (unsigned views) and Int (signed
  views) with explicit two's-complement wrapping;
* the shared physical memory (a sparse map of 4 KiB pages) is a structure
  with a page-presence predicate and a byte function;
* stateful Rust methods become pure Lean functions that return the new
  state; Rust panics become distinguished result constructors;
* the CPU, its CSR file, the MMU and the instruction table follow
  crates/riscv-cpu/src/cpu.rs, cpu/instructions.rs and mmu.rs;
  the process-level memory manager and syscall dispatch follow
  src/xous.rs and src/xous/services.rs.
-/

namespace Yove

/-- 2^32, the wrap modulus of the 32-bit machine. -/
def U32M : Nat := 4294967296

/-- Truncate a natural number to a u32 value. -/
def u32 (n : Nat) : Nat := n % U32M

/-- Reinterpret a u32 bit pattern as a signed i32 value. -/
def i32ofU32 (n : Nat) : Int :=
  if n % U32M < 2147483648 then ((n % U32M : Nat) : Int)
  else ((n % U32M : Nat) : Int) - 4294967296

/-- Two's-complement bit pattern (u32) of a signed value; for values in
the i32 range this is the usual cast, and any Int is first wrapped. -/
def u32ofI32 (v : Int) : Nat := (v % 4294967296).toNat

/-- Wrap any integer into the i32 range (two's complement). -/
def i32wrap (v : Int) : Int := i32ofU32 (u32ofI32 v)

/-- Bitwise AND on i32 values, computed on their two's-complement patterns. -/
def i32and (a b : Int) : Int := i32ofU32 (Nat.land (u32ofI32 a) (u32ofI32 b))

/-- Bitwise OR on i32 values, computed on their two's-complement patterns. -/
def i32or (a b : Int) : Int := i32ofU32 (Nat.lor (u32ofI32 a) (u32ofI32 b))

/-- Bitwise XOR on i32 values, computed on their two's-complement patterns. -/
def i32xor (a b : Int) : Int := i32ofU32 (Nat.xor (u32ofI32 a) (u32ofI32 b))

/-- Bitwise NOT on an i32 value. -/
def i32not (a : Int) : Int := i32ofU32 (Nat.xor (u32ofI32 a) 4294967295)

/-- Reinterpret a byte as a signed i8 (the Rust cast: data as i8 as i32). -/
def i8ofU8 (n : Nat) : Int :=
  if n % 256 < 128 then ((n % 256 : Nat) : Int) else ((n % 256 : Nat) : Int) - 256

/-- Reinterpret a halfword as a signed i16 (the Rust cast: data as i16 as i32). -/
def i16ofU16 (n : Nat) : Int :=
  if n % 65536 < 32768 then ((n % 65536 : Nat) : Int)
  else ((n % 65536 : Nat) : Int) - 65536

/-- Arithmetic shift right of an i32 value (the Rust >> on i32). -/
def i32asr (a : Int) (s : Nat) : Int := Int.fdiv a (2 ^ s)

/-!
Shared physical memory.

src/src/xous.rs keeps the backing store as a HashMap from page-aligned
physical addresses to 4096-byte arrays (impl riscv_cpu::cpu::Memory for
Memory).  Reads of unmapped pages return zero; writes to unmapped pages
are dropped.  We model the map keys as a predicate on page base addresses
and the page contents as one byte-indexed function.  The multi-byte
accessors index inside the page of the given address, as the Rust code
does; all call sites in the emulator keep them within one page.

The reservations field has no counterpart under src/: the cpu code calls
mmu.reserve(core, address) and mmu.clear_reservation(core, address), whose
implementation is not part of the sources provided.  It is modelled from
the spec (section 4.4): a map from hart id to reserved physical address.
-/

/-- The page base address containing a byte address (address & !0xfff). -/
def pageOf (a : Nat) : Nat := a - a % 4096

structure Mem where
  pages : Nat → Bool
  bytes : Nat → Nat
  /-- Modelled from the spec: the reservation map from hart id to the
  hart's reserved address; its Rust implementation is not under src/. -/
  reservations : Nat → Option Nat

def Mem.read_u8 (m : Mem) (address : Nat) : Nat :=
  if m.pages (pageOf address) then m.bytes address else 0

def Mem.read_u16 (m : Mem) (address : Nat) : Nat :=
  if m.pages (pageOf address) then
    m.bytes address + 256 * m.bytes (address + 1)
  else 0

def Mem.read_u32 (m : Mem) (address : Nat) : Nat :=
  if m.pages (pageOf address) then
    m.bytes address + 256 * m.bytes (address + 1) +
      65536 * m.bytes (address + 2) + 16777216 * m.bytes (address + 3)
  else 0

def Mem.write_u8 (m : Mem) (address : Nat) (value : Nat) : Mem :=
  if m.pages (pageOf address) then
    { m with bytes := Function.update m.bytes address (value % 256) }
  else m

def Mem.write_u16 (m : Mem) (address : Nat) (value : Nat) : Mem :=
  if m.pages (pageOf address) then
    let b0 := Function.update m.bytes address (value % 256)
    let b1 := Function.update b0 (address + 1) (value / 256 % 256)
    { m with bytes := b1 }
  else m

def Mem.write_u32 (m : Mem) (address : Nat) (value : Nat) : Mem :=
  if m.pages (pageOf address) then
    let b0 := Function.update m.bytes address (value % 256)
    let b1 := Function.update b0 (address + 1) (value / 256 % 256)
    let b2 := Function.update b1 (address + 2) (value / 65536 % 256)
    let b3 := Function.update b2 (address + 3) (value / 16777216 % 256)
    { m with bytes := b3 }
  else m

/-- Modelled from the spec: reserve(hart, pa) replaces the hart's current
reservation. -/
def Mem.reserve (m : Mem) (core : Nat) (p_address : Nat) : Mem :=
  { m with reservations := Function.update m.reservations core (some p_address) }

/-- Modelled from the spec: clear_reservation(hart, pa) returns true iff
the hart's reservation equals pa, in which case it is removed. -/
def Mem.clear_reservation (m : Mem) (core : Nat) (p_address : Nat) : Bool × Mem :=
  if m.reservations core = some p_address then
    (true, { m with reservations := Function.update m.reservations core none })
  else (false, m)

/-!
CPU data model, after crates/riscv-cpu/src/cpu.rs.

Registers are kept as signed i32 values (x: [i32; 32] in the source), the
program counter and CSRs as u32 values.  The addressing mode enum of
mmu.rs also has SV39/SV48 variants, but this crate's CPU only ever
installs None or SV32 (Cpu::update_addressing_mode), so only those two
are modelled.  The instruction cache of mmu.rs is omitted: its read path
is commented out in the source, so it has no observable effect.
-/

inductive PrivilegeMode where
  | user
  | supervisor
  | reserved
  | machine
deriving DecidableEq

inductive TrapType where
  | instructionAddressMisaligned
  | instructionAccessFault
  | illegalInstruction
  | breakpoint
  | loadAddressMisaligned
  | loadAccessFault
  | storeAddressMisaligned
  | storeAccessFault
  | environmentCallFromUMode
  | environmentCallFromSMode
  | environmentCallFromMMode
  | instructionPageFault
  | loadPageFault
  | storePageFault
  | userSoftwareInterrupt
  | supervisorSoftwareInterrupt
  | machineSoftwareInterrupt
  | userTimerInterrupt
  | supervisorTimerInterrupt
  | machineTimerInterrupt
  | userExternalInterrupt
  | supervisorExternalInterrupt
  | machineExternalInterrupt
  /-- Carries a host response channel in the source; the channel itself is
  outside the embedded state. -/
  | pauseEmulation
deriving DecidableEq

structure Trap where
  trap_type : TrapType
  value : Nat
deriving DecidableEq

def get_trap_cause (trap : Trap) : Nat :=
  let interrupt_bit : Nat := 0x80000000
  match trap.trap_type with
  | .instructionAddressMisaligned => 0
  | .instructionAccessFault => 1
  | .illegalInstruction => 2
  | .breakpoint => 3
  | .loadAddressMisaligned => 4
  | .loadAccessFault => 5
  | .storeAddressMisaligned => 6
  | .storeAccessFault => 7
  | .environmentCallFromUMode => 8
  | .environmentCallFromSMode => 9
  | .environmentCallFromMMode => 11
  | .instructionPageFault => 12
  | .loadPageFault => 13
  | .storePageFault => 15
  | .pauseEmulation => 16
  | .userSoftwareInterrupt => interrupt_bit
  | .supervisorSoftwareInterrupt => interrupt_bit + 1
  | .machineSoftwareInterrupt => interrupt_bit + 3
  | .userTimerInterrupt => interrupt_bit + 4
  | .supervisorTimerInterrupt => interrupt_bit + 5
  | .machineTimerInterrupt => interrupt_bit + 7
  | .userExternalInterrupt => interrupt_bit + 8
  | .supervisorExternalInterrupt => interrupt_bit + 9
  | .machineExternalInterrupt => interrupt_bit + 11

/-- Privilege encoding; the Reserved variant panics in the source, hence
the Option result. -/
def get_privilege_encoding : PrivilegeMode → Option Nat
  | .user => some 0
  | .supervisor => some 1
  | .reserved => none
  | .machine => some 3

/-- decode_privilege_mode panics on encodings other than 0, 1, 3. -/
def decode_privilege_mode : Nat → Option PrivilegeMode
  | 0 => some .user
  | 1 => some .supervisor
  | 3 => some .machine
  | _ => none

inductive AddressingMode where
  | none
  | sv32
deriving DecidableEq

inductive MemoryAccessType where
  | execute
  | read
  | write
  | dontCare
deriving DecidableEq

structure Mmu where
  ppn : Nat
  addressing_mode : AddressingMode
  privilege_mode : PrivilegeMode
  mstatus : Nat

/-- Result of the host-side syscall handler reached through ECALL
(mmu.rs SyscallResult); the deferred channel payload is outside the
embedded state. -/
inductive SyscallResult where
  | ok (result : Nat → Int)
  | defer
  | terminate (result : Nat)
  | cont

structure Machine where
  clock : Nat
  privilege_mode : PrivilegeMode
  wfi : Bool
  x : Nat → Int
  pc : Nat
  csr : Nat → Nat
  mmu : Mmu
  mem : Mem
  /-- The Memory trait's syscall handler: host-side behaviour supplied by
  the environment, kept abstract as a function of the argument registers. -/
  sysc : (Nat → Int) → SyscallResult

def CSR_USTATUS_ADDRESS : Nat := 0x000
def CSR_FFLAGS_ADDRESS : Nat := 0x001
def CSR_FRM_ADDRESS : Nat := 0x002
def CSR_FCSR_ADDRESS : Nat := 0x003
def CSR_UIE_ADDRESS : Nat := 0x004
def CSR_UTVEC_ADDRESS : Nat := 0x005
def CSR_UEPC_ADDRESS : Nat := 0x041
def CSR_UCAUSE_ADDRESS : Nat := 0x042
def CSR_UTVAL_ADDRESS : Nat := 0x043
def CSR_SSTATUS_ADDRESS : Nat := 0x100
def CSR_SEDELEG_ADDRESS : Nat := 0x102
def CSR_SIDELEG_ADDRESS : Nat := 0x103
def CSR_SIE_ADDRESS : Nat := 0x104
def CSR_STVEC_ADDRESS : Nat := 0x105
def CSR_SEPC_ADDRESS : Nat := 0x141
def CSR_SCAUSE_ADDRESS : Nat := 0x142
def CSR_STVAL_ADDRESS : Nat := 0x143
def CSR_SIP_ADDRESS : Nat := 0x144
def CSR_SATP_ADDRESS : Nat := 0x180
def CSR_MSTATUS_ADDRESS : Nat := 0x300
def CSR_MEDELEG_ADDRESS : Nat := 0x302
def CSR_MIDELEG_ADDRESS : Nat := 0x303
def CSR_MIE_ADDRESS : Nat := 0x304
def CSR_MTVEC_ADDRESS : Nat := 0x305
def CSR_MEPC_ADDRESS : Nat := 0x341
def CSR_MCAUSE_ADDRESS : Nat := 0x342
def CSR_MTVAL_ADDRESS : Nat := 0x343
def CSR_MIP_ADDRESS : Nat := 0x344
def CSR_CYCLE_ADDRESS : Nat := 0xc00
def CSR_MHARTID_ADDRESS : Nat := 0xf14

def MIP_MEIP : Nat := 0x800
def MIP_MTIP : Nat := 0x080
def MIP_MSIP : Nat := 0x008
def MIP_SEIP : Nat := 0x200
def MIP_STIP : Nat := 0x020
def MIP_SSIP : Nat := 0x002

def Machine.read_register (s : Machine) (reg : Nat) : Int :=
  match reg with
  | 0 => 0
  | _ => s.x reg

def Machine.write_register (s : Machine) (reg : Nat) (val : Int) : Machine :=
  if reg = 0 then s
  else { s with x := Function.update s.x reg val }

/-- SSTATUS, SIE, and SIP are masked aliases of MSTATUS, MIE, and MIP
(Cpu::read_csr_raw). -/
def Machine.read_csr_raw (s : Machine) (address : Nat) : Nat :=
  if address = CSR_FFLAGS_ADDRESS then Nat.land (s.csr CSR_FCSR_ADDRESS) 0x1f
  else if address = CSR_FRM_ADDRESS then Nat.land (s.csr CSR_FCSR_ADDRESS >>> 5) 0x7
  else if address = CSR_SSTATUS_ADDRESS then Nat.land (s.csr CSR_MSTATUS_ADDRESS) 0x800de162
  else if address = CSR_SIE_ADDRESS then Nat.land (s.csr CSR_MIE_ADDRESS) 0x222
  else if address = CSR_SIP_ADDRESS then Nat.land (s.csr CSR_MIP_ADDRESS) 0x222
  else s.csr address

def Machine.setCsr (s : Machine) (address : Nat) (value : Nat) : Machine :=
  { s with csr := Function.update s.csr address value }

/-- Cpu::write_csr_raw.  Complemented u32 masks are written out as
constants: !0x1f = 0xffffffe0, !0xe0 = 0xffffff1f, !0x800de162 =
0x7ff21e9d, !0x222 = 0xfffffddd. -/
def Machine.write_csr_raw (s : Machine) (address : Nat) (value : Nat) : Machine :=
  if address = CSR_FFLAGS_ADDRESS then
    s.setCsr CSR_FCSR_ADDRESS
      (Nat.lor (Nat.land (s.csr CSR_FCSR_ADDRESS) 0xffffffe0) (Nat.land value 0x1f))
  else if address = CSR_FRM_ADDRESS then
    s.setCsr CSR_FCSR_ADDRESS
      (Nat.lor (Nat.land (s.csr CSR_FCSR_ADDRESS) 0xffffff1f)
        (Nat.land (u32 (value <<< 5)) 0xe0))
  else if address = CSR_SSTATUS_ADDRESS then
    let s1 := s.setCsr CSR_MSTATUS_ADDRESS
      (Nat.lor (Nat.land (s.csr CSR_MSTATUS_ADDRESS) 0x7ff21e9d)
        (Nat.land value 0x800de162))
    { s1 with mmu := { s1.mmu with mstatus := s1.read_csr_raw CSR_MSTATUS_ADDRESS } }
  else if address = CSR_SIE_ADDRESS then
    s.setCsr CSR_MIE_ADDRESS
      (Nat.lor (Nat.land (s.csr CSR_MIE_ADDRESS) 0xfffffddd) (Nat.land value 0x222))
  else if address = CSR_SIP_ADDRESS then
    s.setCsr CSR_MIP_ADDRESS
      (Nat.lor (Nat.land (s.csr CSR_MIP_ADDRESS) 0xfffffddd) (Nat.land value 0x222))
  else if address = CSR_MIDELEG_ADDRESS then
    s.setCsr address (Nat.land value 0x666)
  else if address = CSR_MEDELEG_ADDRESS then
    s.setCsr address value
  else if address = CSR_MTVEC_ADDRESS then
    s.setCsr address value
  else if address = CSR_MSTATUS_ADDRESS then
    let s1 := s.setCsr address value
    { s1 with mmu := { s1.mmu with mstatus := s1.read_csr_raw CSR_MSTATUS_ADDRESS } }
  else
    s.setCsr address value

/-- Cpu::update_addressing_mode, invoked from write_csr on SATP. -/
def Machine.update_addressing_mode (s : Machine) (value : Nat) : Machine :=
  let addressing_mode :=
    if Nat.land value 0x80000000 = 0 then AddressingMode.none else AddressingMode.sv32
  let ppn := Nat.land value 0x3fffff
  { s with mmu := { s.mmu with addressing_mode := addressing_mode, ppn := ppn } }

def Machine.has_csr_access_privilege (s : Machine) (address : Nat) : Bool :=
  let privilege := Nat.land (address >>> 8) 0x3
  match get_privilege_encoding s.privilege_mode with
  | some enc => privilege ≤ enc
  | none => false

def Machine.read_csr (s : Machine) (address : Nat) : Except Trap Nat :=
  match s.has_csr_access_privilege address with
  | true => .ok (s.read_csr_raw address)
  | false => .error ⟨.illegalInstruction, (s.pc + (U32M - 4)) % U32M⟩

def Machine.write_csr (s : Machine) (address : Nat) (value : Nat) :
    Except Trap Unit × Machine :=
  if s.has_csr_access_privilege address then
    let s1 := s.write_csr_raw address value
    let s2 := if address = CSR_SATP_ADDRESS then s1.update_addressing_mode value else s1
    (.ok (), s2)
  else
    (.error ⟨.illegalInstruction, (s.pc + (U32M - 4)) % U32M⟩, s)

/-!
MMU translation, after crates/riscv-cpu/src/mmu.rs, specialised to the
32-bit machine (trim_to_xlen is reduction mod 2^32, PTEs are 4 bytes).
Page-table walks write accessed/dirty bits back, so every translation
returns the possibly-updated memory.
-/

inductive TransRes where
  | ok (pa : Nat)
  | err
  | panicked
deriving DecidableEq

/-- Mmu::traverse_page for SV32.  The level argument is 1 for the root
and 0 for the leaf table; levels above 1 fall into the source's
unreachable panic arm. -/
def traverse_page (m : Mem) (v_address : Nat) (level : Nat) (parent_ppn : Nat)
    (vpns : Nat → Nat) (access_type : MemoryAccessType) : TransRes × Mem :=
  let pagesize := 4096
  let ptesize := 4
  let pte_address := parent_ppn * pagesize + vpns level * ptesize
  let pte := m.read_u32 pte_address
  let ppn := Nat.land (pte >>> 10) 0x3fffff
  let ppns0 := Nat.land (pte >>> 10) 0x3ff
  let ppns1 := Nat.land (pte >>> 20) 0xfff
  let d := Nat.land (pte >>> 7) 1
  let a := Nat.land (pte >>> 6) 1
  let xbit := Nat.land (pte >>> 3) 1
  let w := Nat.land (pte >>> 2) 1
  let r := Nat.land (pte >>> 1) 1
  let v := Nat.land pte 1
  if v = 0 ∨ (r = 0 ∧ w = 1) then (.err, m)
  else if r = 0 ∧ xbit = 0 then
    match level with
    | 0 => (.err, m)
    | l + 1 => traverse_page m v_address l ppn vpns access_type
  else
    -- Leaf page found.  The A/D write-back happens before the permission check.
    let m1 :=
      if a = 0 ∨ (access_type = .write ∧ d = 0) then
        m.write_u32 pte_address
          (Nat.lor pte (Nat.lor 0x40 (if access_type = .write then 0x80 else 0)))
      else m
    if access_type = .execute ∧ xbit = 0 then (.err, m1)
    else if access_type = .read ∧ r = 0 then (.err, m1)
    else if access_type = .write ∧ w = 0 then (.err, m1)
    else
      let offset := Nat.land v_address 0xfff
      match level with
      | 1 =>
        if ppns0 ≠ 0 then (.err, m1)
        else (.ok (Nat.lor (ppns1 <<< 22) (Nat.lor (vpns 0 <<< 12) offset)), m1)
      | 0 => (.ok (Nat.lor (ppn <<< 12) offset), m1)
      | _ => (.panicked, m1)

/-- The SV32 virtual page numbers of an address: index 0 is bits 21:12,
index 1 is bits 31:22. -/
def sv32_vpns (address : Nat) : Nat → Nat := fun i =>
  if i = 0 then Nat.land (address >>> 12) 0x3ff else Nat.land (address >>> 22) 0x3ff

/-- Mmu::translate_address_with_privilege_mode (SV32 arm).  The source
recurses once when MPRV redirects a Machine-mode access to MPP's mode;
here it reaches the walk directly, which is the same computation.
decode_privilege_mode of an MPP field equal to 2 panics in the source. -/
def translate_address_with_privilege_mode (s : Machine) (v_address : Nat)
    (access_type : MemoryAccessType) (privilege_mode : PrivilegeMode) :
    TransRes × Mem :=
  let address := u32 v_address
  match s.mmu.addressing_mode with
  | .none => (.ok address, s.mem)
  | .sv32 =>
    match privilege_mode with
    | .machine =>
      if access_type = .execute then (.ok address, s.mem)
      else if Nat.land (s.mmu.mstatus >>> 17) 1 = 0 then (.ok address, s.mem)
      else
        match decode_privilege_mode (Nat.land (s.mmu.mstatus >>> 9) 3) with
        | some .machine => (.ok address, s.mem)
        | some _ => traverse_page s.mem address 1 s.mmu.ppn (sv32_vpns address) access_type
        | none => (.panicked, s.mem)
    | .user | .supervisor =>
      traverse_page s.mem address 1 s.mmu.ppn (sv32_vpns address) access_type
    | .reserved => (.ok address, s.mem)

/-- Mmu::translate_address: Bare mode is the identity, otherwise walk with
the MMU's current privilege mode. -/
def Machine.translate_address (s : Machine) (v_address : Nat)
    (access_type : MemoryAccessType) : TransRes × Mem :=
  match s.mmu.addressing_mode with
  | .none => (.ok v_address, s.mem)
  | _ => translate_address_with_privilege_mode s v_address access_type s.mmu.privilege_mode

inductive MRes (α : Type) where
  | ok (a : α)
  | trap (t : Trap)
  | panicked
deriving DecidableEq

def Machine.withMem (s : Machine) (m : Mem) : Machine := { s with mem := m }

/-- Mmu::fetch, a one-byte instruction fetch (used by the page-crossing
path of fetch_word). -/
def Machine.fetch_byte (s : Machine) (v_address : Nat) : MRes Nat × Machine :=
  match s.translate_address v_address .execute with
  | (.ok p_address, m) => (.ok ((s.withMem m).mem.read_u8 p_address), s.withMem m)
  | (.err, m) => (.trap ⟨.instructionPageFault, v_address⟩, s.withMem m)
  | (.panicked, m) => (.panicked, s.withMem m)

/-- Mmu::fetch_word: a four-byte instruction fetch, translated once when
it stays inside one page and byte by byte otherwise. -/
def Machine.fetch_word (s : Machine) (v_address : Nat) : MRes Nat × Machine :=
  let width := 4
  if Nat.land v_address 0xfff ≤ 0x1000 - width then
    let effective_address := u32 v_address
    match s.translate_address effective_address .execute with
    | (.ok p_address, m) => (.ok ((s.withMem m).mem.read_u32 p_address), s.withMem m)
    | (.err, m) => (.trap ⟨.instructionPageFault, effective_address⟩, s.withMem m)
    | (.panicked, m) => (.panicked, s.withMem m)
  else
    match s.fetch_byte v_address with
    | (.ok b0, s0) =>
      match s0.fetch_byte ((v_address + 1) % U32M) with
      | (.ok b1, s1) =>
        match s1.fetch_byte ((v_address + 2) % U32M) with
        | (.ok b2, s2) =>
          match s2.fetch_byte ((v_address + 3) % U32M) with
          | (.ok b3, s3) =>
            (.ok (b0 + 256 * b1 + 65536 * b2 + 16777216 * b3), s3)
          | e => e
        | e => e
      | e => e
    | e => e

/-- Mmu::load, a one-byte data load. -/
def Machine.load (s : Machine) (v_address : Nat) : MRes Nat × Machine :=
  let effective_address := u32 v_address
  match s.translate_address effective_address .read with
  | (.ok p_address, m) => (.ok ((s.withMem m).mem.read_u8 p_address), s.withMem m)
  | (.err, m) => (.trap ⟨.loadPageFault, v_address⟩, s.withMem m)
  | (.panicked, m) => (.panicked, s.withMem m)

/-- The byte-by-byte slow path of Mmu::load_bytes. -/
def Machine.load_bytes_slow (s : Machine) (v_address : Nat) :
    Nat → Nat → Nat → MRes Nat × Machine
  | _, 0, acc => (.ok acc, s)
  | i, widthLeft + 1, acc =>
    match s.load ((v_address + i) % U32M) with
    | (.ok b, s1) => s1.load_bytes_slow v_address (i + 1) widthLeft (acc + b <<< (i * 8))
    | (e, s1) => (match e with | .trap t => (.trap t, s1) | _ => (.panicked, s1))

/-- Mmu::load_bytes (widths 1, 2 and 4 are used by the RV32 instructions;
other widths fall into the source's panic arm). -/
def Machine.load_bytes (s : Machine) (v_address : Nat) (width : Nat) :
    MRes Nat × Machine :=
  if Nat.land v_address 0xfff ≤ 0x1000 - width then
    match s.translate_address v_address .read with
    | (.ok p_address, m) =>
      let s1 := s.withMem m
      match width with
      | 1 => (.ok (s1.mem.read_u8 p_address), s1)
      | 2 => (.ok (s1.mem.read_u16 p_address), s1)
      | 4 => (.ok (s1.mem.read_u32 p_address), s1)
      | _ => (.panicked, s1)
    | (.err, m) => (.trap ⟨.loadPageFault, v_address⟩, s.withMem m)
    | (.panicked, m) => (.panicked, s.withMem m)
  else
    s.load_bytes_slow v_address 0 width 0

def Machine.load_halfword (s : Machine) (v_address : Nat) : MRes Nat × Machine :=
  s.load_bytes v_address 2

def Machine.load_word (s : Machine) (v_address : Nat) : MRes Nat × Machine :=
  s.load_bytes v_address 4

/-- Mmu::store, a one-byte data store. -/
def Machine.store (s : Machine) (v_address : Nat) (value : Nat) :
    MRes Unit × Machine :=
  match s.translate_address v_address .write with
  | (.ok p_address, m) => (.ok (), s.withMem (m.write_u8 p_address value))
  | (.err, m) => (.trap ⟨.storePageFault, v_address⟩, s.withMem m)
  | (.panicked, m) => (.panicked, s.withMem m)

/-- The byte-by-byte slow path of Mmu::store_bytes. -/
def Machine.store_bytes_slow (s : Machine) (v_address : Nat) (value : Nat) :
    Nat → Nat → MRes Unit × Machine
  | _, 0 => (.ok (), s)
  | i, widthLeft + 1 =>
    match s.store ((v_address + i) % U32M) (Nat.land (value >>> (i * 8)) 0xff) with
    | (.ok _, s1) => s1.store_bytes_slow v_address value (i + 1) widthLeft
    | (e, s1) => (e, s1)

/-- Mmu::store_bytes. -/
def Machine.store_bytes (s : Machine) (v_address : Nat) (value : Nat) (width : Nat) :
    MRes Unit × Machine :=
  if Nat.land v_address 0xfff ≤ 0x1000 - width then
    match s.translate_address v_address .write with
    | (.ok p_address, m) =>
      let s1 := s.withMem m
      match width with
      | 1 => (.ok (), s1.withMem (s1.mem.write_u8 p_address value))
      | 2 => (.ok (), s1.withMem (s1.mem.write_u16 p_address value))
      | 4 => (.ok (), s1.withMem (s1.mem.write_u32 p_address value))
      | _ => (.panicked, s1)
    | (.err, m) => (.trap ⟨.storePageFault, v_address⟩, s.withMem m)
    | (.panicked, m) => (.panicked, s.withMem m)
  else
    s.store_bytes_slow v_address value 0 width

def Machine.store_halfword (s : Machine) (v_address : Nat) (value : Nat) :
    MRes Unit × Machine :=
  s.store_bytes v_address value 2

def Machine.store_word (s : Machine) (v_address : Nat) (value : Nat) :
    MRes Unit × Machine :=
  s.store_bytes v_address value 4

/-- Cpu::fetch: fetch the word at PC; on a fault the source first bumps
PC by 4 and then propagates the trap. -/
def Machine.fetch (s : Machine) : MRes Nat × Machine :=
  match s.fetch_word s.pc with
  | (.ok w, s1) => (.ok w, s1)
  | (.trap t, s1) => (.trap t, { s1 with pc := (s1.pc + 4) % U32M })
  | (.panicked, s1) => (.panicked, s1)

/-!
Instruction formats and semantics, after
crates/riscv-cpu/src/cpu/instructions.rs.  Each operation takes the
machine, the instruction word and the pre-increment instruction address,
and returns an outcome together with the new machine; Rust panics inside
handlers (URET, unhandled termination, reserved privilege) are the
panicked outcome.
-/

inductive ExecOut where
  | ok
  | trap (t : Trap)
  | panicked
deriving DecidableEq

/-- Raw register-file write, as the handlers do with cpu.x[rd] = v
(x0 is restored by the tick loop afterwards, not here). -/
def updX (s : Machine) (rd : Nat) (v : Int) : Machine :=
  { s with x := Function.update s.x rd v }

def most_negative : Int := -2147483648

structure FormatR where
  rd : Nat
  rs1 : Nat
  rs2 : Nat

def parse_format_r (word : Nat) : FormatR :=
  ⟨Nat.land (word >>> 7) 0x1f, Nat.land (word >>> 15) 0x1f, Nat.land (word >>> 20) 0x1f⟩

structure FormatI where
  rd : Nat
  rs1 : Nat
  imm : Int

def parse_format_i (word : Nat) : FormatI :=
  { rd := Nat.land (word >>> 7) 0x1f
    rs1 := Nat.land (word >>> 15) 0x1f
    imm := i32ofU32 (Nat.lor
      (if Nat.land word 0x80000000 ≠ 0 then 0xfffff800 else 0)
      (Nat.land (word >>> 20) 0x7ff)) }

structure FormatB where
  rs1 : Nat
  rs2 : Nat
  imm : Nat

def parse_format_b (word : Nat) : FormatB :=
  { rs1 := Nat.land (word >>> 15) 0x1f
    rs2 := Nat.land (word >>> 20) 0x1f
    imm := Nat.lor
      (if Nat.land word 0x80000000 = 0x80000000 then 0xfffff000 else 0)
      (Nat.lor (Nat.land (word <<< 4) 0x00000800)
        (Nat.lor (Nat.land (word >>> 20) 0x000007e0) (Nat.land (word >>> 7) 0x0000001e))) }

structure FormatJ where
  rd : Nat
  imm : Nat

def parse_format_j (word : Nat) : FormatJ :=
  { rd := Nat.land (word >>> 7) 0x1f
    imm := Nat.lor
      (if Nat.land word 0x80000000 = 0x80000000 then 0xfff00000 else 0)
      (Nat.lor (Nat.land word 0x000ff000)
        (Nat.lor (Nat.land word 0x00100000 >>> 9) (Nat.land word 0x7fe00000 >>> 20))) }

structure FormatS where
  rs1 : Nat
  rs2 : Nat
  imm : Int

def parse_format_s (word : Nat) : FormatS :=
  { rs1 := Nat.land (word >>> 15) 0x1f
    rs2 := Nat.land (word >>> 20) 0x1f
    imm := i32ofU32 (Nat.lor
      (if Nat.land word 0x80000000 = 0x80000000 then 0xfffff000 else 0)
      (Nat.lor (Nat.land (word >>> 20) 0xfe0) (Nat.land (word >>> 7) 0x1f))) }

structure FormatU where
  rd : Nat
  imm : Nat

def parse_format_u (word : Nat) : FormatU :=
  ⟨Nat.land (word >>> 7) 0x1f, Nat.land word 0xfffff000⟩

structure FormatCSR where
  csr : Nat
  rs : Nat
  rd : Nat

def parse_format_csr (word : Nat) : FormatCSR :=
  ⟨Nat.land (word >>> 20) 0xfff, Nat.land (word >>> 15) 0x1f, Nat.land (word >>> 7) 0x1f⟩

def op_ADD (s : Machine) (word : Nat) (_address : Nat) : ExecOut × Machine :=
  let f := parse_format_r word
  (.ok, updX s f.rd (i32wrap (s.x f.rs1 + s.x f.rs2)))

def op_ADDI (s : Machine) (word : Nat) (_address : Nat) : ExecOut × Machine :=
  let f := parse_format_i word
  (.ok, updX s f.rd (i32wrap (s.x f.rs1 + f.imm)))

def op_ADDIW (s : Machine) (word : Nat) (_address : Nat) : ExecOut × Machine :=
  let f := parse_format_i word
  (.ok, updX s f.rd (i32wrap (s.x f.rs1 + f.imm)))

def op_ADDW (s : Machine) (word : Nat) (_address : Nat) : ExecOut × Machine :=
  let f := parse_format_r word
  (.ok, updX s f.rd (i32wrap (s.x f.rs1 + s.x f.rs2)))

def op_AMOADD_W (s : Machine) (word : Nat) (_address : Nat) : ExecOut × Machine :=
  let f := parse_format_r word
  match s.load_word (u32ofI32 (s.x f.rs1)) with
  | (.ok dval, s1) =>
    let tmp := i32ofU32 dval
    match s1.store_word (u32ofI32 (s1.x f.rs1)) (u32ofI32 (i32wrap (s1.x f.rs2 + tmp))) with
    | (.ok _, s2) => (.ok, updX s2 f.rd tmp)
    | (.trap t, s2) => (.trap t, s2)
    | (.panicked, s2) => (.panicked, s2)
  | (.trap t, s1) => (.trap t, s1)
  | (.panicked, s1) => (.panicked, s1)

def op_AMOAND_W (s : Machine) (word : Nat) (_address : Nat) : ExecOut × Machine :=
  let f := parse_format_r word
  match s.load_word (u32ofI32 (s.x f.rs1)) with
  | (.ok dval, s1) =>
    let tmp := i32ofU32 dval
    match s1.store_word (u32ofI32 (s1.x f.rs1)) (u32ofI32 (i32and (s1.x f.rs2) tmp)) with
    | (.ok _, s2) => (.ok, updX s2 f.rd tmp)
    | (.trap t, s2) => (.trap t, s2)
    | (.panicked, s2) => (.panicked, s2)
  | (.trap t, s1) => (.trap t, s1)
  | (.panicked, s1) => (.panicked, s1)

def op_AMOMAXU_W (s : Machine) (word : Nat) (_address : Nat) : ExecOut × Machine :=
  let f := parse_format_r word
  match s.load_word (u32ofI32 (s.x f.rs1)) with
  | (.ok tmp, s1) =>
    let maxv := if u32ofI32 (s1.x f.rs2) ≥ tmp then u32ofI32 (s1.x f.rs2) else tmp
    match s1.store_word (u32ofI32 (s1.x f.rs1)) maxv with
    | (.ok _, s2) => (.ok, updX s2 f.rd (i32ofU32 tmp))
    | (.trap t, s2) => (.trap t, s2)
    | (.panicked, s2) => (.panicked, s2)
  | (.trap t, s1) => (.trap t, s1)
  | (.panicked, s1) => (.panicked, s1)

def op_AMOOR_W (s : Machine) (word : Nat) (_address : Nat) : ExecOut × Machine :=
  let f := parse_format_r word
  match s.load_word (u32ofI32 (s.x f.rs1)) with
  | (.ok dval, s1) =>
    let tmp := i32ofU32 dval
    match s1.store_word (u32ofI32 (s1.x f.rs1)) (u32ofI32 (i32or (s1.x f.rs2) tmp)) with
    | (.ok _, s2) => (.ok, updX s2 f.rd tmp)
    | (.trap t, s2) => (.trap t, s2)
    | (.panicked, s2) => (.panicked, s2)
  | (.trap t, s1) => (.trap t, s1)
  | (.panicked, s1) => (.panicked, s1)

def op_AMOSWAP_W (s : Machine) (word : Nat) (_address : Nat) : ExecOut × Machine :=
  let f := parse_format_r word
  match s.load_word (u32ofI32 (s.x f.rs1)) with
  | (.ok dval, s1) =>
    let tmp := i32ofU32 dval
    match s1.store_word (u32ofI32 (s1.x f.rs1)) (u32ofI32 (s1.x f.rs2)) with
    | (.ok _, s2) => (.ok, updX s2 f.rd tmp)
    | (.trap t, s2) => (.trap t, s2)
    | (.panicked, s2) => (.panicked, s2)
  | (.trap t, s1) => (.trap t, s1)
  | (.panicked, s1) => (.panicked, s1)

def op_AND (s : Machine) (word : Nat) (_address : Nat) : ExecOut × Machine :=
  let f := parse_format_r word
  (.ok, updX s f.rd (i32and (s.x f.rs1) (s.x f.rs2)))

def op_ANDI (s : Machine) (word : Nat) (_address : Nat) : ExecOut × Machine :=
  let f := parse_format_i word
  (.ok, updX s f.rd (i32and (s.x f.rs1) f.imm))

def op_AUIPC (s : Machine) (word : Nat) (address : Nat) : ExecOut × Machine :=
  let f := parse_format_u word
  (.ok, updX s f.rd (i32ofU32 ((address + f.imm) % U32M)))

def op_BEQ (s : Machine) (word : Nat) (address : Nat) : ExecOut × Machine :=
  let f := parse_format_b word
  if s.x f.rs1 = s.x f.rs2 then (.ok, { s with pc := (address + f.imm) % U32M })
  else (.ok, s)

def op_BGE (s : Machine) (word : Nat) (address : Nat) : ExecOut × Machine :=
  let f := parse_format_b word
  if s.x f.rs1 ≥ s.x f.rs2 then (.ok, { s with pc := (address + f.imm) % U32M })
  else (.ok, s)

def op_BGEU (s : Machine) (word : Nat) (address : Nat) : ExecOut × Machine :=
  let f := parse_format_b word
  if u32ofI32 (s.x f.rs1) ≥ u32ofI32 (s.x f.rs2) then
    (.ok, { s with pc := (address + f.imm) % U32M })
  else (.ok, s)

def op_BLT (s : Machine) (word : Nat) (address : Nat) : ExecOut × Machine :=
  let f := parse_format_b word
  if s.x f.rs1 < s.x f.rs2 then (.ok, { s with pc := (address + f.imm) % U32M })
  else (.ok, s)

def op_BLTU (s : Machine) (word : Nat) (address : Nat) : ExecOut × Machine :=
  let f := parse_format_b word
  if u32ofI32 (s.x f.rs1) < u32ofI32 (s.x f.rs2) then
    (.ok, { s with pc := (address + f.imm) % U32M })
  else (.ok, s)

def op_BNE (s : Machine) (word : Nat) (address : Nat) : ExecOut × Machine :=
  let f := parse_format_b word
  if s.x f.rs1 ≠ s.x f.rs2 then (.ok, { s with pc := (address + f.imm) % U32M })
  else (.ok, s)

def op_CSRRC (s : Machine) (word : Nat) (_address : Nat) : ExecOut × Machine :=
  let f := parse_format_csr word
  match s.read_csr f.csr with
  | .error e => (.trap e, s)
  | .ok dval =>
    let tmp := s.x f.rs
    let s1 := updX s f.rd (i32ofU32 dval)
    match s1.write_csr f.csr (u32ofI32 (i32and (s1.x f.rd) (i32not tmp))) with
    | (.ok _, s2) => (.ok, s2)
    | (.error e, s2) => (.trap e, s2)

def op_CSRRCI (s : Machine) (word : Nat) (_address : Nat) : ExecOut × Machine :=
  let f := parse_format_csr word
  match s.read_csr f.csr with
  | .error e => (.trap e, s)
  | .ok dval =>
    let s1 := updX s f.rd (i32ofU32 dval)
    match s1.write_csr f.csr (u32ofI32 (i32and (s1.x f.rd) (i32not (f.rs : Int)))) with
    | (.ok _, s2) => (.ok, s2)
    | (.error e, s2) => (.trap e, s2)

def op_CSRRS (s : Machine) (word : Nat) (_address : Nat) : ExecOut × Machine :=
  let f := parse_format_csr word
  match s.read_csr f.csr with
  | .error e => (.trap e, s)
  | .ok dval =>
    let tmp := s.x f.rs
    let s1 := updX s f.rd (i32ofU32 dval)
    match s1.write_csr f.csr (u32ofI32 (i32or (s1.x f.rd) tmp)) with
    | (.ok _, s2) => (.ok, s2)
    | (.error e, s2) => (.trap e, s2)

def op_CSRRSI (s : Machine) (word : Nat) (_address : Nat) : ExecOut × Machine :=
  let f := parse_format_csr word
  match s.read_csr f.csr with
  | .error e => (.trap e, s)
  | .ok dval =>
    let s1 := updX s f.rd (i32ofU32 dval)
    match s1.write_csr f.csr (u32ofI32 (i32or (s1.x f.rd) (f.rs : Int))) with
    | (.ok _, s2) => (.ok, s2)
    | (.error e, s2) => (.trap e, s2)

def op_CSRRW (s : Machine) (word : Nat) (_address : Nat) : ExecOut × Machine :=
  let f := parse_format_csr word
  match s.read_csr f.csr with
  | .error e => (.trap e, s)
  | .ok dval =>
    let tmp := s.x f.rs
    let s1 := updX s f.rd (i32ofU32 dval)
    match s1.write_csr f.csr (u32ofI32 tmp) with
    | (.ok _, s2) => (.ok, s2)
    | (.error e, s2) => (.trap e, s2)

def op_CSRRWI (s : Machine) (word : Nat) (_address : Nat) : ExecOut × Machine :=
  let f := parse_format_csr word
  match s.read_csr f.csr with
  | .error e => (.trap e, s)
  | .ok dval =>
    let s1 := updX s f.rd (i32ofU32 dval)
    match s1.write_csr f.csr f.rs with
    | (.ok _, s2) => (.ok, s2)
    | (.error e, s2) => (.trap e, s2)

def op_DIV (s : Machine) (word : Nat) (_address : Nat) : ExecOut × Machine :=
  let f := parse_format_r word
  let dividend := s.x f.rs1
  let divisor := s.x f.rs2
  if divisor = 0 then (.ok, updX s f.rd (-1))
  else if dividend = most_negative ∧ divisor = -1 then (.ok, updX s f.rd dividend)
  else (.ok, updX s f.rd (i32wrap (Int.tdiv dividend divisor)))

def op_DIVU (s : Machine) (word : Nat) (_address : Nat) : ExecOut × Machine :=
  let f := parse_format_r word
  let dividend := u32ofI32 (s.x f.rs1)
  let divisor := u32ofI32 (s.x f.rs2)
  if divisor = 0 then (.ok, updX s f.rd (-1))
  else (.ok, updX s f.rd (i32ofU32 (dividend / divisor)))

def op_DIVUW (s : Machine) (word : Nat) (_address : Nat) : ExecOut × Machine :=
  let f := parse_format_r word
  let dividend := u32ofI32 (s.x f.rs1)
  let divisor := u32ofI32 (s.x f.rs2)
  if divisor = 0 then (.ok, updX s f.rd (-1))
  else (.ok, updX s f.rd (i32ofU32 (dividend / divisor)))

def op_DIVW (s : Machine) (word : Nat) (_address : Nat) : ExecOut × Machine :=
  let f := parse_format_r word
  let dividend := s.x f.rs1
  let divisor := s.x f.rs2
  if divisor = 0 then (.ok, updX s f.rd (-1))
  else if dividend = most_negative ∧ divisor = -1 then (.ok, updX s f.rd dividend)
  else (.ok, updX s f.rd (i32wrap (Int.tdiv dividend divisor)))

def op_EBREAK (s : Machine) (_word : Nat) (_address : Nat) : ExecOut × Machine :=
  (.ok, s)

def op_ECALL (s : Machine) (_word : Nat) (address : Nat) : ExecOut × Machine :=
  let args : Nat → Int := fun i => if i < 8 then s.x (10 + i) else 0
  match s.sysc args with
  | .ok result =>
    let s1 := updX s 10 (result 0)
    let s2 := updX s1 11 (result 1)
    let s3 := updX s2 12 (result 2)
    let s4 := updX s3 13 (result 3)
    let s5 := updX s4 14 (result 4)
    let s6 := updX s5 15 (result 5)
    let s7 := updX s6 16 (result 6)
    let s8 := updX s7 17 (result 7)
    (.ok, s8)
  | .defer => (.trap ⟨.pauseEmulation, address⟩, s)
  | .terminate _ => (.panicked, s)
  | .cont =>
    match s.privilege_mode with
    | .user => (.trap ⟨.environmentCallFromUMode, address⟩, s)
    | .supervisor => (.trap ⟨.environmentCallFromSMode, address⟩, s)
    | .machine => (.trap ⟨.environmentCallFromMMode, address⟩, s)
    | .reserved => (.panicked, s)

def op_FENCE (s : Machine) (_word : Nat) (_address : Nat) : ExecOut × Machine :=
  (.ok, s)

def op_FENCE_I (s : Machine) (_word : Nat) (_address : Nat) : ExecOut × Machine :=
  (.ok, s)

def op_JAL (s : Machine) (word : Nat) (address : Nat) : ExecOut × Machine :=
  let f := parse_format_j word
  let s1 := updX s f.rd (i32ofU32 s.pc)
  (.ok, { s1 with pc := (address + f.imm) % U32M })

def op_JALR (s : Machine) (word : Nat) (_address : Nat) : ExecOut × Machine :=
  let f := parse_format_i word
  let tmp := i32ofU32 s.pc
  let s1 := { s with pc := (u32ofI32 (s.x f.rs1) + u32ofI32 f.imm) % U32M }
  (.ok, updX s1 f.rd tmp)

def op_LB (s : Machine) (word : Nat) (_address : Nat) : ExecOut × Machine :=
  let f := parse_format_i word
  match s.load (u32ofI32 (i32wrap (s.x f.rs1 + f.imm))) with
  | (.ok dval, s1) => (.ok, updX s1 f.rd (i8ofU8 dval))
  | (.trap t, s1) => (.trap t, s1)
  | (.panicked, s1) => (.panicked, s1)

def op_LBU (s : Machine) (word : Nat) (_address : Nat) : ExecOut × Machine :=
  let f := parse_format_i word
  match s.load (u32ofI32 (i32wrap (s.x f.rs1 + f.imm))) with
  | (.ok dval, s1) => (.ok, updX s1 f.rd (dval : Int))
  | (.trap t, s1) => (.trap t, s1)
  | (.panicked, s1) => (.panicked, s1)

def op_LH (s : Machine) (word : Nat) (_address : Nat) : ExecOut × Machine :=
  let f := parse_format_i word
  match s.load_halfword (u32ofI32 (i32wrap (s.x f.rs1 + f.imm))) with
  | (.ok dval, s1) => (.ok, updX s1 f.rd (i16ofU16 dval))
  | (.trap t, s1) => (.trap t, s1)
  | (.panicked, s1) => (.panicked, s1)

def op_LHU (s : Machine) (word : Nat) (_address : Nat) : ExecOut × Machine :=
  let f := parse_format_i word
  match s.load_halfword (u32ofI32 (i32wrap (s.x f.rs1 + f.imm))) with
  | (.ok dval, s1) => (.ok, updX s1 f.rd (dval : Int))
  | (.trap t, s1) => (.trap t, s1)
  | (.panicked, s1) => (.panicked, s1)

def op_LR_W (s : Machine) (word : Nat) (_address : Nat) : ExecOut × Machine :=
  let f := parse_format_r word
  let address := u32ofI32 (s.x f.rs1)
  let core := s.read_csr_raw CSR_MHARTID_ADDRESS
  match s.load_word address with
  | (.ok dval, s1) =>
    let s2 := updX s1 f.rd (i32ofU32 dval)
    (.ok, s2.withMem (s2.mem.reserve core address))
  | (.trap t, s1) => (.trap t, s1)
  | (.panicked, s1) => (.panicked, s1)

def op_LUI (s : Machine) (word : Nat) (_address : Nat) : ExecOut × Machine :=
  let f := parse_format_u word
  (.ok, updX s f.rd (i32ofU32 f.imm))

def op_LW (s : Machine) (word : Nat) (_address : Nat) : ExecOut × Machine :=
  let f := parse_format_i word
  match s.load_word (u32ofI32 (i32wrap (s.x f.rs1 + f.imm))) with
  | (.ok dval, s1) => (.ok, updX s1 f.rd (i32ofU32 dval))
  | (.trap t, s1) => (.trap t, s1)
  | (.panicked, s1) => (.panicked, s1)

def op_LWU (s : Machine) (word : Nat) (_address : Nat) : ExecOut × Machine :=
  let f := parse_format_i word
  match s.load_word (u32ofI32 (i32wrap (s.x f.rs1 + f.imm))) with
  | (.ok dval, s1) => (.ok, updX s1 f.rd (i32ofU32 dval))
  | (.trap t, s1) => (.trap t, s1)
  | (.panicked, s1) => (.panicked, s1)

def op_MUL (s : Machine) (word : Nat) (_address : Nat) : ExecOut × Machine :=
  let f := parse_format_r word
  (.ok, updX s f.rd (i32wrap (s.x f.rs1 * s.x f.rs2)))

def op_MULH (s : Machine) (word : Nat) (_address : Nat) : ExecOut × Machine :=
  let f := parse_format_r word
  (.ok, updX s f.rd (i32wrap (Int.fdiv (s.x f.rs1 * s.x f.rs2) 4294967296)))

def op_MULHU (s : Machine) (word : Nat) (_address : Nat) : ExecOut × Machine :=
  let f := parse_format_r word
  let r1 := u32ofI32 (s.x f.rs1)
  let r2 := u32ofI32 (s.x f.rs2)
  (.ok, updX s f.rd (i32ofU32 (r1 * r2 >>> 32)))

def op_MULHSU (s : Machine) (word : Nat) (_address : Nat) : ExecOut × Machine :=
  let f := parse_format_r word
  (.ok, updX s f.rd
    (i32wrap (Int.fdiv (s.x f.rs1 * (u32ofI32 (s.x f.rs2) : Int)) 4294967296)))

def op_MULW (s : Machine) (word : Nat) (_address : Nat) : ExecOut × Machine :=
  let f := parse_format_r word
  (.ok, updX s f.rd (i32wrap (s.x f.rs1 * s.x f.rs2)))

def op_MRET (s : Machine) (_word : Nat) (_address : Nat) : ExecOut × Machine :=
  match s.read_csr CSR_MEPC_ADDRESS with
  | .error e => (.trap e, s)
  | .ok dval =>
    let s1 := { s with pc := dval }
    let status := s1.read_csr_raw CSR_MSTATUS_ADDRESS
    let mpie := Nat.land (status >>> 7) 1
    let mpp := Nat.land (status >>> 11) 0x3
    match decode_privilege_mode mpp with
    | none => (.panicked, s1)
    | some mppMode =>
      let mprv := match mppMode with
        | .machine => Nat.land (status >>> 17) 1
        | _ => 0
      let new_status := Nat.lor
        (Nat.lor (Nat.lor (Nat.land status 0xfffde777) (mprv <<< 17)) (mpie <<< 3))
        (1 <<< 7)
      let s2 := s1.write_csr_raw CSR_MSTATUS_ADDRESS new_status
      (.ok, { s2 with privilege_mode := mppMode,
                      mmu := { s2.mmu with privilege_mode := mppMode } })

def op_OR (s : Machine) (word : Nat) (_address : Nat) : ExecOut × Machine :=
  let f := parse_format_r word
  (.ok, updX s f.rd (i32or (s.x f.rs1) (s.x f.rs2)))

def op_ORI (s : Machine) (word : Nat) (_address : Nat) : ExecOut × Machine :=
  let f := parse_format_i word
  (.ok, updX s f.rd (i32or (s.x f.rs1) f.imm))

def op_REM (s : Machine) (word : Nat) (_address : Nat) : ExecOut × Machine :=
  let f := parse_format_r word
  let dividend := s.x f.rs1
  let divisor := s.x f.rs2
  if divisor = 0 then (.ok, updX s f.rd dividend)
  else if dividend = most_negative ∧ divisor = -1 then (.ok, updX s f.rd 0)
  else (.ok, updX s f.rd (i32wrap (Int.tmod dividend divisor)))

def op_REMU (s : Machine) (word : Nat) (_address : Nat) : ExecOut × Machine :=
  let f := parse_format_r word
  let dividend := u32ofI32 (s.x f.rs1)
  let divisor := u32ofI32 (s.x f.rs2)
  (.ok, updX s f.rd
    (if divisor = 0 then i32ofU32 dividend else i32ofU32 (dividend % divisor)))

def op_REMUW (s : Machine) (word : Nat) (_address : Nat) : ExecOut × Machine :=
  let f := parse_format_r word
  let dividend := u32ofI32 (s.x f.rs1)
  let divisor := u32ofI32 (s.x f.rs2)
  (.ok, updX s f.rd
    (if divisor = 0 then i32ofU32 dividend else i32ofU32 (dividend % divisor)))

def op_REMW (s : Machine) (word : Nat) (_address : Nat) : ExecOut × Machine :=
  let f := parse_format_r word
  let dividend := s.x f.rs1
  let divisor := s.x f.rs2
  if divisor = 0 then (.ok, updX s f.rd dividend)
  else if dividend = most_negative ∧ divisor = -1 then (.ok, updX s f.rd 0)
  else (.ok, updX s f.rd (i32wrap (Int.tmod dividend divisor)))

def op_SB (s : Machine) (word : Nat) (_address : Nat) : ExecOut × Machine :=
  let f := parse_format_s word
  match s.store (u32ofI32 (i32wrap (s.x f.rs1 + f.imm))) (Nat.land (u32ofI32 (s.x f.rs2)) 0xff) with
  | (.ok _, s1) => (.ok, s1)
  | (.trap t, s1) => (.trap t, s1)
  | (.panicked, s1) => (.panicked, s1)

def op_SC_W (s : Machine) (word : Nat) (_address : Nat) : ExecOut × Machine :=
  let f := parse_format_r word
  let address := u32ofI32 (s.x f.rs1)
  let core := s.read_csr_raw CSR_MHARTID_ADDRESS
  let cleared := s.mem.clear_reservation core address
  let s0 := s.withMem cleared.2
  if cleared.1 then
    match s0.store_word address (u32ofI32 (s0.x f.rs2)) with
    | (.ok _, s1) => (.ok, updX s1 f.rd 0)
    | (.trap t, s1) => (.trap t, s1)
    | (.panicked, s1) => (.panicked, s1)
  else (.ok, updX s0 f.rd 1)

def op_SFENCE_VMA (s : Machine) (_word : Nat) (_address : Nat) : ExecOut × Machine :=
  (.ok, s)

def op_SH (s : Machine) (word : Nat) (_address : Nat) : ExecOut × Machine :=
  let f := parse_format_s word
  match s.store_halfword (u32ofI32 (i32wrap (s.x f.rs1 + f.imm)))
      (Nat.land (u32ofI32 (s.x f.rs2)) 0xffff) with
  | (.ok _, s1) => (.ok, s1)
  | (.trap t, s1) => (.trap t, s1)
  | (.panicked, s1) => (.panicked, s1)

def op_SLL (s : Machine) (word : Nat) (_address : Nat) : ExecOut × Machine :=
  let f := parse_format_r word
  let sa := u32ofI32 (s.x f.rs2) % 32
  (.ok, updX s f.rd (i32ofU32 (u32 (u32ofI32 (s.x f.rs1) <<< sa))))

def op_SLLI (s : Machine) (word : Nat) (_address : Nat) : ExecOut × Machine :=
  let f := parse_format_r word
  let shamt := f.rs2
  (.ok, updX s f.rd (i32ofU32 (u32 (u32ofI32 (s.x f.rs1) <<< shamt))))

def op_SLLIW (s : Machine) (word : Nat) (_address : Nat) : ExecOut × Machine :=
  let f := parse_format_r word
  let shamt := f.rs2
  (.ok, updX s f.rd (i32ofU32 (u32 (u32ofI32 (s.x f.rs1) <<< shamt))))

def op_SLLW (s : Machine) (word : Nat) (_address : Nat) : ExecOut × Machine :=
  let f := parse_format_r word
  let sa := u32ofI32 (s.x f.rs2) % 32
  (.ok, updX s f.rd (i32ofU32 (u32 (u32ofI32 (s.x f.rs1) <<< sa))))

def op_SLT (s : Machine) (word : Nat) (_address : Nat) : ExecOut × Machine :=
  let f := parse_format_r word
  (.ok, updX s f.rd (if s.x f.rs1 < s.x f.rs2 then 1 else 0))

def op_SLTI (s : Machine) (word : Nat) (_address : Nat) : ExecOut × Machine :=
  let f := parse_format_i word
  (.ok, updX s f.rd (if s.x f.rs1 < f.imm then 1 else 0))

def op_SLTIU (s : Machine) (word : Nat) (_address : Nat) : ExecOut × Machine :=
  let f := parse_format_i word
  (.ok, updX s f.rd (if u32ofI32 (s.x f.rs1) < u32ofI32 f.imm then 1 else 0))

def op_SLTU (s : Machine) (word : Nat) (_address : Nat) : ExecOut × Machine :=
  let f := parse_format_r word
  (.ok, updX s f.rd (if u32ofI32 (s.x f.rs1) < u32ofI32 (s.x f.rs2) then 1 else 0))

def op_SRA (s : Machine) (word : Nat) (_address : Nat) : ExecOut × Machine :=
  let f := parse_format_r word
  let sa := u32ofI32 (s.x f.rs2) % 32
  (.ok, updX s f.rd (i32asr (s.x f.rs1) sa))

def op_SRAI (s : Machine) (word : Nat) (_address : Nat) : ExecOut × Machine :=
  let f := parse_format_r word
  let shamt := Nat.land (word >>> 20) 0x1f
  (.ok, updX s f.rd (i32asr (s.x f.rs1) shamt))

def op_SRAIW (s : Machine) (word : Nat) (_address : Nat) : ExecOut × Machine :=
  let f := parse_format_r word
  let shamt := Nat.land (word >>> 20) 0x1f
  (.ok, updX s f.rd (i32asr (s.x f.rs1) shamt))

def op_SRAW (s : Machine) (word : Nat) (_address : Nat) : ExecOut × Machine :=
  let f := parse_format_r word
  let sa := u32ofI32 (s.x f.rs2) % 32
  (.ok, updX s f.rd (i32asr (s.x f.rs1) sa))

def op_SRET (s : Machine) (_word : Nat) (_address : Nat) : ExecOut × Machine :=
  match s.read_csr CSR_SEPC_ADDRESS with
  | .error e => (.trap e, s)
  | .ok dval =>
    let s1 := { s with pc := dval }
    let status := s1.read_csr_raw CSR_SSTATUS_ADDRESS
    let spie := Nat.land (status >>> 5) 1
    let spp := Nat.land (status >>> 8) 1
    match decode_privilege_mode spp with
    | none => (.panicked, s1)
    | some sppMode =>
      let mprv := match sppMode with
        | .machine => Nat.land (status >>> 17) 1
        | _ => 0
      let new_status := Nat.lor
        (Nat.lor (Nat.lor (Nat.land status 0xfffdfedd) (mprv <<< 17)) (spie <<< 1))
        (1 <<< 5)
      let s2 := s1.write_csr_raw CSR_SSTATUS_ADDRESS new_status
      (.ok, { s2 with privilege_mode := sppMode,
                      mmu := { s2.mmu with privilege_mode := sppMode } })

def op_SRL (s : Machine) (word : Nat) (_address : Nat) : ExecOut × Machine :=
  let f := parse_format_r word
  let sa := u32ofI32 (s.x f.rs2) % 32
  (.ok, updX s f.rd (i32ofU32 (u32ofI32 (s.x f.rs1) >>> sa)))

def op_SRLI (s : Machine) (word : Nat) (_address : Nat) : ExecOut × Machine :=
  let f := parse_format_r word
  let shamt := Nat.land (word >>> 20) 0x1f
  (.ok, updX s f.rd (i32ofU32 (u32ofI32 (s.x f.rs1) >>> shamt)))

def op_SRLIW (s : Machine) (word : Nat) (_address : Nat) : ExecOut × Machine :=
  let f := parse_format_r word
  let shamt := Nat.land (word >>> 20) 0x1f
  (.ok, updX s f.rd (i32ofU32 (u32ofI32 (s.x f.rs1) >>> shamt)))

def op_SRLW (s : Machine) (word : Nat) (_address : Nat) : ExecOut × Machine :=
  let f := parse_format_r word
  let sa := u32ofI32 (s.x f.rs2) % 32
  (.ok, updX s f.rd (i32ofU32 (u32ofI32 (s.x f.rs1) >>> sa)))

def op_SUB (s : Machine) (word : Nat) (_address : Nat) : ExecOut × Machine :=
  let f := parse_format_r word
  (.ok, updX s f.rd (i32wrap (s.x f.rs1 - s.x f.rs2)))

def op_SUBW (s : Machine) (word : Nat) (_address : Nat) : ExecOut × Machine :=
  let f := parse_format_r word
  (.ok, updX s f.rd (i32wrap (s.x f.rs1 - s.x f.rs2)))

def op_SW (s : Machine) (word : Nat) (_address : Nat) : ExecOut × Machine :=
  let f := parse_format_s word
  match s.store_word (u32ofI32 (i32wrap (s.x f.rs1 + f.imm))) (u32ofI32 (s.x f.rs2)) with
  | (.ok _, s1) => (.ok, s1)
  | (.trap t, s1) => (.trap t, s1)
  | (.panicked, s1) => (.panicked, s1)

def op_URET (s : Machine) (_word : Nat) (_address : Nat) : ExecOut × Machine :=
  (.panicked, s)

def op_WFI (s : Machine) (_word : Nat) (_address : Nat) : ExecOut × Machine :=
  (.ok, { s with wfi := true })

def op_XOR (s : Machine) (word : Nat) (_address : Nat) : ExecOut × Machine :=
  let f := parse_format_r word
  (.ok, updX s f.rd (i32xor (s.x f.rs1) (s.x f.rs2)))

def op_XORI (s : Machine) (word : Nat) (_address : Nat) : ExecOut × Machine :=
  let f := parse_format_i word
  (.ok, updX s f.rd (i32xor (s.x f.rs1) f.imm))

structure Instruction where
  mask : Nat
  data : Nat
  name : String
  operation : Machine → Nat → Nat → ExecOut × Machine

set_option maxHeartbeats 1000000 in
/-- The build-time instruction table of get_instructions, in source order
(first match wins). -/
def get_instructions : List Instruction := [
  Instruction.mk 0xfe00707f 0x00000033 "ADD" op_ADD,
  Instruction.mk 0x0000707f 0x00000013 "ADDI" op_ADDI,
  Instruction.mk 0x0000707f 0x0000001b "ADDIW" op_ADDIW,
  Instruction.mk 0xfe00707f 0x0000003b "ADDW" op_ADDW,
  Instruction.mk 0xf800707f 0x0000202f "AMOADD.W" op_AMOADD_W,
  Instruction.mk 0xf800707f 0x6000202f "AMOAND.W" op_AMOAND_W,
  Instruction.mk 0xf800707f 0xe000202f "AMOMAXU.W" op_AMOMAXU_W,
  Instruction.mk 0xf800707f 0x4000202f "AMOOR.W" op_AMOOR_W,
  Instruction.mk 0xf800707f 0x0800202f "AMOSWAP.W" op_AMOSWAP_W,
  Instruction.mk 0xfe00707f 0x00007033 "AND" op_AND,
  Instruction.mk 0x0000707f 0x00007013 "ANDI" op_ANDI,
  Instruction.mk 0x0000007f 0x00000017 "AUIPC" op_AUIPC,
  Instruction.mk 0x0000707f 0x00000063 "BEQ" op_BEQ,
  Instruction.mk 0x0000707f 0x00005063 "BGE" op_BGE,
  Instruction.mk 0x0000707f 0x00007063 "BGEU" op_BGEU,
  Instruction.mk 0x0000707f 0x00004063 "BLT" op_BLT,
  Instruction.mk 0x0000707f 0x00006063 "BLTU" op_BLTU,
  Instruction.mk 0x0000707f 0x00001063 "BNE" op_BNE,
  Instruction.mk 0x0000707f 0x00003073 "CSRRC" op_CSRRC,
  Instruction.mk 0x0000707f 0x00007073 "CSRRCI" op_CSRRCI,
  Instruction.mk 0x0000707f 0x00002073 "CSRRS" op_CSRRS,
  Instruction.mk 0x0000707f 0x00006073 "CSRRSI" op_CSRRSI,
  Instruction.mk 0x0000707f 0x00001073 "CSRRW" op_CSRRW,
  Instruction.mk 0x0000707f 0x00005073 "CSRRWI" op_CSRRWI,
  Instruction.mk 0xfe00707f 0x02004033 "DIV" op_DIV,
  Instruction.mk 0xfe00707f 0x02005033 "DIVU" op_DIVU,
  Instruction.mk 0xfe00707f 0x0200503b "DIVUW" op_DIVUW,
  Instruction.mk 0xfe00707f 0x0200403b "DIVW" op_DIVW,
  Instruction.mk 0xffffffff 0x00100073 "EBREAK" op_EBREAK,
  Instruction.mk 0xffffffff 0x00000073 "ECALL" op_ECALL,
  Instruction.mk 0x0000707f 0x0000000f "FENCE" op_FENCE,
  Instruction.mk 0x0000707f 0x0000100f "FENCE.I" op_FENCE_I,
  Instruction.mk 0x0000007f 0x0000006f "JAL" op_JAL,
  Instruction.mk 0x0000707f 0x00000067 "JALR" op_JALR,
  Instruction.mk 0x0000707f 0x00000003 "LB" op_LB,
  Instruction.mk 0x0000707f 0x00004003 "LBU" op_LBU,
  Instruction.mk 0x0000707f 0x00001003 "LH" op_LH,
  Instruction.mk 0x0000707f 0x00005003 "LHU" op_LHU,
  Instruction.mk 0xf9f0707f 0x1000202f "LR.W" op_LR_W,
  Instruction.mk 0x0000007f 0x00000037 "LUI" op_LUI,
  Instruction.mk 0x0000707f 0x00002003 "LW" op_LW,
  Instruction.mk 0x0000707f 0x00006003 "LWU" op_LWU,
  Instruction.mk 0xfe00707f 0x02000033 "MUL" op_MUL,
  Instruction.mk 0xfe00707f 0x02001033 "MULH" op_MULH,
  Instruction.mk 0xfe00707f 0x02003033 "MULHU" op_MULHU,
  Instruction.mk 0xfe00707f 0x02002033 "MULHSU" op_MULHSU,
  Instruction.mk 0xfe00707f 0x0200003b "MULW" op_MULW,
  Instruction.mk 0xffffffff 0x30200073 "MRET" op_MRET,
  Instruction.mk 0xfe00707f 0x00006033 "OR" op_OR,
  Instruction.mk 0x0000707f 0x00006013 "ORI" op_ORI,
  Instruction.mk 0xfe00707f 0x02006033 "REM" op_REM,
  Instruction.mk 0xfe00707f 0x02007033 "REMU" op_REMU,
  Instruction.mk 0xfe00707f 0x0200703b "REMUW" op_REMUW,
  Instruction.mk 0xfe00707f 0x0200603b "REMW" op_REMW,
  Instruction.mk 0x0000707f 0x00000023 "SB" op_SB,
  Instruction.mk 0xf800707f 0x1800202f "SC.W" op_SC_W,
  Instruction.mk 0xfe007fff 0x12000073 "SFENCE.VMA" op_SFENCE_VMA,
  Instruction.mk 0x0000707f 0x00001023 "SH" op_SH,
  Instruction.mk 0xfe00707f 0x00001033 "SLL" op_SLL,
  Instruction.mk 0xfc00707f 0x00001013 "SLLI" op_SLLI,
  Instruction.mk 0xfe00707f 0x0000101b "SLLIW" op_SLLIW,
  Instruction.mk 0xfe00707f 0x0000103b "SLLW" op_SLLW,
  Instruction.mk 0xfe00707f 0x00002033 "SLT" op_SLT,
  Instruction.mk 0x0000707f 0x00002013 "SLTI" op_SLTI,
  Instruction.mk 0x0000707f 0x00003013 "SLTIU" op_SLTIU,
  Instruction.mk 0xfe00707f 0x00003033 "SLTU" op_SLTU,
  Instruction.mk 0xfe00707f 0x40005033 "SRA" op_SRA,
  Instruction.mk 0xfc00707f 0x40005013 "SRAI" op_SRAI,
  Instruction.mk 0xfc00707f 0x4000501b "SRAIW" op_SRAIW,
  Instruction.mk 0xfe00707f 0x4000503b "SRAW" op_SRAW,
  Instruction.mk 0xffffffff 0x10200073 "SRET" op_SRET,
  Instruction.mk 0xfe00707f 0x00005033 "SRL" op_SRL,
  Instruction.mk 0xfc00707f 0x00005013 "SRLI" op_SRLI,
  Instruction.mk 0xfc00707f 0x0000501b "SRLIW" op_SRLIW,
  Instruction.mk 0xfe00707f 0x0000503b "SRLW" op_SRLW,
  Instruction.mk 0xfe00707f 0x40000033 "SUB" op_SUB,
  Instruction.mk 0xfe00707f 0x4000003b "SUBW" op_SUBW,
  Instruction.mk 0x0000707f 0x00002023 "SW" op_SW,
  Instruction.mk 0xffffffff 0x00200073 "URET" op_URET,
  Instruction.mk 0xffffffff 0x10500073 "WFI" op_WFI,
  Instruction.mk 0xfe00707f 0x00004033 "XOR" op_XOR,
  Instruction.mk 0x0000707f 0x00004013 "XORI" op_XORI]

/-- Cpu::decode_and_get_instruction_index: linear search, first entry
with (word & mask) == data wins. -/
def decode_and_get_instruction_index (word : Nat) : Option Nat :=
  List.findIdx? (fun inst => Nat.land word inst.mask = inst.data) get_instructions

/-- Cpu::decode_raw: on decode failure it builds an IllegalInstruction
trap whose tval is the current PC minus four (the PC has already been
advanced past the instruction in the tick path). -/
def Machine.decode_raw (s : Machine) (word : Nat) : Except Trap Nat :=
  match decode_and_get_instruction_index word with
  | some index => .ok index
  | none => .error ⟨.illegalInstruction, (s.pc + (U32M - 4)) % U32M⟩

def defaultInstruction : Instruction := ⟨0, 0, "", fun s _ _ => (.panicked, s)⟩

def runInstruction (index : Nat) (s : Machine) (word : Nat) (address : Nat) :
    ExecOut × Machine :=
  (List.getD get_instructions index defaultInstruction).operation s word address

/-!
Cpu::uncompress: expansion of a 16-bit RVC halfword into the equivalent
32-bit encoding.  Every reserved or unhandled encoding falls through to
the all-ones invalid word 0xffffffff.  All arithmetic is u32; shifted
immediates that can carry sign-extension bits are wrapped with u32.
-/

def uncompress (halfword : Nat) : Nat :=
  let op := halfword &&& 0x3
  let funct3 := (halfword >>> 13) &&& 0x7
  if op = 0 then
    if funct3 = 0 then
      -- C.ADDI4SPN: addi rd+8, x2, nzuimm (nzuimm == 0 is reserved)
      let rd := (halfword >>> 2) &&& 0x7
      let nzuimm := ((halfword >>> 7) &&& 0x30) ||| ((halfword >>> 1) &&& 0x3c0) |||
        ((halfword >>> 4) &&& 0x4) ||| ((halfword >>> 2) &&& 0x8)
      if nzuimm ≠ 0 then (nzuimm <<< 20) ||| (2 <<< 15) ||| ((rd + 8) <<< 7) ||| 0x13
      else 0xffffffff
    else if funct3 = 1 then
      -- C.FLD
      let rd := (halfword >>> 2) &&& 0x7
      let rs1 := (halfword >>> 7) &&& 0x7
      let offset := ((halfword >>> 7) &&& 0x38) ||| ((halfword <<< 1) &&& 0xc0)
      (offset <<< 20) ||| ((rs1 + 8) <<< 15) ||| (3 <<< 12) ||| ((rd + 8) <<< 7) ||| 0x7
    else if funct3 = 2 then
      -- C.LW
      let rs1 := (halfword >>> 7) &&& 0x7
      let rd := (halfword >>> 2) &&& 0x7
      let offset := ((halfword >>> 7) &&& 0x38) ||| ((halfword >>> 4) &&& 0x4) |||
        ((halfword <<< 1) &&& 0x40)
      (offset <<< 20) ||| ((rs1 + 8) <<< 15) ||| (2 <<< 12) ||| ((rd + 8) <<< 7) ||| 0x3
    else if funct3 = 3 then
      -- C.LD
      let rs1 := (halfword >>> 7) &&& 0x7
      let rd := (halfword >>> 2) &&& 0x7
      let offset := ((halfword >>> 7) &&& 0x38) ||| ((halfword <<< 1) &&& 0xc0)
      (offset <<< 20) ||| ((rs1 + 8) <<< 15) ||| (3 <<< 12) ||| ((rd + 8) <<< 7) ||| 0x3
    else if funct3 = 4 then
      -- Reserved
      0xffffffff
    else if funct3 = 5 then
      -- C.FSD
      let rs1 := (halfword >>> 7) &&& 0x7
      let rs2 := (halfword >>> 2) &&& 0x7
      let offset := ((halfword >>> 7) &&& 0x38) ||| ((halfword <<< 1) &&& 0xc0)
      let imm11_5 := (offset >>> 5) &&& 0x7f
      let imm4_0 := offset &&& 0x1f
      (imm11_5 <<< 25) ||| ((rs2 + 8) <<< 20) ||| ((rs1 + 8) <<< 15) ||| (3 <<< 12) |||
        (imm4_0 <<< 7) ||| 0x27
    else if funct3 = 6 then
      -- C.SW
      let rs1 := (halfword >>> 7) &&& 0x7
      let rs2 := (halfword >>> 2) &&& 0x7
      let offset := ((halfword >>> 7) &&& 0x38) ||| ((halfword <<< 1) &&& 0x40) |||
        ((halfword >>> 4) &&& 0x4)
      let imm11_5 := (offset >>> 5) &&& 0x7f
      let imm4_0 := offset &&& 0x1f
      (imm11_5 <<< 25) ||| ((rs2 + 8) <<< 20) ||| ((rs1 + 8) <<< 15) ||| (2 <<< 12) |||
        (imm4_0 <<< 7) ||| 0x23
    else
      -- C.SD
      let rs1 := (halfword >>> 7) &&& 0x7
      let rs2 := (halfword >>> 2) &&& 0x7
      let offset := ((halfword >>> 7) &&& 0x38) ||| ((halfword <<< 1) &&& 0xc0)
      let imm11_5 := (offset >>> 5) &&& 0x7f
      let imm4_0 := offset &&& 0x1f
      (imm11_5 <<< 25) ||| ((rs2 + 8) <<< 20) ||| ((rs1 + 8) <<< 15) ||| (3 <<< 12) |||
        (imm4_0 <<< 7) ||| 0x23
  else if op = 1 then
    if funct3 = 0 then
      let r := (halfword >>> 7) &&& 0x1f
      let imm := (if halfword &&& 0x1000 = 0x1000 then 0xffffffc0 else 0) |||
        ((halfword >>> 7) &&& 0x20) ||| ((halfword >>> 2) &&& 0x1f)
      if r = 0 ∧ imm = 0 then
        -- C.NOP
        0x13
      else if r ≠ 0 then
        -- C.ADDI
        u32 (imm <<< 20) ||| (r <<< 15) ||| (r <<< 7) ||| 0x13
      else 0xffffffff
    else if funct3 = 1 then
      -- C.JAL
      let imm0 := halfword >>> 2
      let r := 1
      let imm := ((imm0 &&& 0b00001000000) <<< 4) ||| ((imm0 &&& 0b00110100000) <<< 1) |||
        ((imm0 &&& 0b00000010000) <<< 3) ||| ((imm0 &&& 0b00000000001) <<< 5) |||
        ((imm0 &&& 0b01000000000) >>> 5) ||| (imm0 &&& 0b00000001110)
      let immw := if halfword &&& 0x1000 = 0 then imm <<< 20 else (imm <<< 20) ||| 0x801ff000
      immw ||| (r <<< 7) ||| 0x6f
    else if funct3 = 2 then
      -- C.LI
      let r := (halfword >>> 7) &&& 0x1f
      let imm := (if halfword &&& 0x1000 = 0x1000 then 0xffffffc0 else 0) |||
        ((halfword >>> 7) &&& 0x20) ||| ((halfword >>> 2) &&& 0x1f)
      if r ≠ 0 then u32 (imm <<< 20) ||| (r <<< 7) ||| 0x13
      else 0xffffffff
    else if funct3 = 3 then
      let r := (halfword >>> 7) &&& 0x1f
      if r = 2 then
        -- C.ADDI16SP (imm == 0 is reserved)
        let imm := (if halfword &&& 0x1000 = 0x1000 then 0xfffffc00 else 0) |||
          ((halfword >>> 3) &&& 0x200) ||| ((halfword >>> 2) &&& 0x10) |||
          ((halfword <<< 1) &&& 0x40) ||| ((halfword <<< 4) &&& 0x180) |||
          ((halfword <<< 3) &&& 0x20)
        if imm ≠ 0 then u32 (imm <<< 20) ||| (r <<< 15) ||| (r <<< 7) ||| 0x13
        else 0xffffffff
      else if r ≠ 0 then
        -- C.LUI (nzimm == 0 is reserved)
        let nzimm := (if halfword &&& 0x1000 = 0x1000 then 0xfffc0000 else 0) |||
          ((halfword <<< 5) &&& 0x20000) ||| ((halfword <<< 10) &&& 0x1f000)
        if nzimm ≠ 0 then nzimm ||| (r <<< 7) ||| 0x37
        else 0xffffffff
      else 0xffffffff
    else if funct3 = 4 then
      let funct2 := (halfword >>> 10) &&& 0x3
      if funct2 = 0 then
        -- C.SRLI
        let shamt := ((halfword >>> 7) &&& 0x20) ||| ((halfword >>> 2) &&& 0x1f)
        let rs1 := (halfword >>> 7) &&& 0x7
        (shamt <<< 20) ||| ((rs1 + 8) <<< 15) ||| (5 <<< 12) ||| ((rs1 + 8) <<< 7) ||| 0x13
      else if funct2 = 1 then
        -- C.SRAI
        let shamt := ((halfword >>> 7) &&& 0x20) ||| ((halfword >>> 2) &&& 0x1f)
        let rs1 := (halfword >>> 7) &&& 0x7
        (0x20 <<< 25) ||| (shamt <<< 20) ||| ((rs1 + 8) <<< 15) ||| (5 <<< 12) |||
          ((rs1 + 8) <<< 7) ||| 0x13
      else if funct2 = 2 then
        -- C.ANDI
        let r := (halfword >>> 7) &&& 0x7
        let imm := (if halfword &&& 0x1000 = 0x1000 then 0xffffffc0 else 0) |||
          ((halfword >>> 7) &&& 0x20) ||| ((halfword >>> 2) &&& 0x1f)
        u32 (imm <<< 20) ||| ((r + 8) <<< 15) ||| (7 <<< 12) ||| ((r + 8) <<< 7) ||| 0x13
      else
        let funct1 := (halfword >>> 12) &&& 1
        let funct2_2 := (halfword >>> 5) &&& 0x3
        let rs1 := (halfword >>> 7) &&& 0x7
        let rs2 := (halfword >>> 2) &&& 0x7
        if funct1 = 0 then
          if funct2_2 = 0 then
            -- C.SUB
            (0x20 <<< 25) ||| ((rs2 + 8) <<< 20) ||| ((rs1 + 8) <<< 15) |||
              ((rs1 + 8) <<< 7) ||| 0x33
          else if funct2_2 = 1 then
            -- C.XOR
            ((rs2 + 8) <<< 20) ||| ((rs1 + 8) <<< 15) ||| (4 <<< 12) |||
              ((rs1 + 8) <<< 7) ||| 0x33
          else if funct2_2 = 2 then
            -- C.OR
            ((rs2 + 8) <<< 20) ||| ((rs1 + 8) <<< 15) ||| (6 <<< 12) |||
              ((rs1 + 8) <<< 7) ||| 0x33
          else
            -- C.AND
            ((rs2 + 8) <<< 20) ||| ((rs1 + 8) <<< 15) ||| (7 <<< 12) |||
              ((rs1 + 8) <<< 7) ||| 0x33
        else
          if funct2_2 = 0 then
            -- C.SUBW
            (0x20 <<< 25) ||| ((rs2 + 8) <<< 20) ||| ((rs1 + 8) <<< 15) |||
              ((rs1 + 8) <<< 7) ||| 0x3b
          else if funct2_2 = 1 then
            -- C.ADDW
            ((rs2 + 8) <<< 20) ||| ((rs1 + 8) <<< 15) ||| ((rs1 + 8) <<< 7) ||| 0x3b
          else 0xffffffff
    else if funct3 = 5 then
      -- C.J
      let offset := (if halfword &&& 0x1000 = 0x1000 then 0xfffff000 else 0) |||
        ((halfword >>> 1) &&& 0x800) ||| ((halfword >>> 7) &&& 0x10) |||
        ((halfword >>> 1) &&& 0x300) ||| ((halfword <<< 2) &&& 0x400) |||
        ((halfword >>> 1) &&& 0x40) ||| ((halfword <<< 1) &&& 0x80) |||
        ((halfword >>> 2) &&& 0xe) ||| ((halfword <<< 3) &&& 0x20)
      let imm := ((offset >>> 1) &&& 0x80000) ||| ((offset <<< 8) &&& 0x7fe00) |||
        ((offset >>> 3) &&& 0x100) ||| ((offset >>> 12) &&& 0xff)
      (imm <<< 12) ||| 0x6f
    else if funct3 = 6 then
      -- C.BEQZ
      let r := (halfword >>> 7) &&& 0x7
      let offset := (if halfword &&& 0x1000 = 0x1000 then 0xfffffe00 else 0) |||
        ((halfword >>> 4) &&& 0x100) ||| ((halfword >>> 7) &&& 0x18) |||
        ((halfword <<< 1) &&& 0xc0) ||| ((halfword >>> 2) &&& 0x6) |||
        ((halfword <<< 3) &&& 0x20)
      let imm2 := ((offset >>> 6) &&& 0x40) ||| ((offset >>> 5) &&& 0x3f)
      let imm1 := (offset &&& 0x1e) ||| ((offset >>> 11) &&& 0x1)
      (imm2 <<< 25) ||| ((r + 8) <<< 20) ||| (imm1 <<< 7) ||| 0x63
    else
      -- C.BNEZ
      let r := (halfword >>> 7) &&& 0x7
      let offset := (if halfword &&& 0x1000 = 0x1000 then 0xfffffe00 else 0) |||
        ((halfword >>> 4) &&& 0x100) ||| ((halfword >>> 7) &&& 0x18) |||
        ((halfword <<< 1) &&& 0xc0) ||| ((halfword >>> 2) &&& 0x6) |||
        ((halfword <<< 3) &&& 0x20)
      let imm2 := ((offset >>> 6) &&& 0x40) ||| ((offset >>> 5) &&& 0x3f)
      let imm1 := (offset &&& 0x1e) ||| ((offset >>> 11) &&& 0x1)
      (imm2 <<< 25) ||| ((r + 8) <<< 20) ||| (1 <<< 12) ||| (imm1 <<< 7) ||| 0x63
  else if op = 2 then
    if funct3 = 0 then
      -- C.SLLI
      let r := (halfword >>> 7) &&& 0x1f
      let shamt := ((halfword >>> 7) &&& 0x20) ||| ((halfword >>> 2) &&& 0x1f)
      if r ≠ 0 then (shamt <<< 20) ||| (r <<< 15) ||| (1 <<< 12) ||| (r <<< 7) ||| 0x13
      else 0xffffffff
    else if funct3 = 1 then
      -- C.FLDSP
      let rd := (halfword >>> 7) &&& 0x1f
      let offset := ((halfword >>> 7) &&& 0x20) ||| ((halfword >>> 2) &&& 0x18) |||
        ((halfword <<< 4) &&& 0x1c0)
      if rd ≠ 0 then (offset <<< 20) ||| (2 <<< 15) ||| (3 <<< 12) ||| (rd <<< 7) ||| 0x7
      else 0xffffffff
    else if funct3 = 2 then
      -- C.LWSP
      let r := (halfword >>> 7) &&& 0x1f
      let offset := ((halfword >>> 7) &&& 0x20) ||| ((halfword >>> 2) &&& 0x1c) |||
        ((halfword <<< 4) &&& 0xc0)
      if r ≠ 0 then (offset <<< 20) ||| (2 <<< 15) ||| (2 <<< 12) ||| (r <<< 7) ||| 0x3
      else 0xffffffff
    else if funct3 = 3 then
      -- C.LDSP
      let rd := (halfword >>> 7) &&& 0x1f
      let offset := ((halfword >>> 7) &&& 0x20) ||| ((halfword >>> 2) &&& 0x18) |||
        ((halfword <<< 4) &&& 0x1c0)
      if rd ≠ 0 then (offset <<< 20) ||| (2 <<< 15) ||| (3 <<< 12) ||| (rd <<< 7) ||| 0x3
      else 0xffffffff
    else if funct3 = 4 then
      let funct1 := (halfword >>> 12) &&& 1
      let rs1 := (halfword >>> 7) &&& 0x1f
      let rs2 := (halfword >>> 2) &&& 0x1f
      if funct1 = 0 then
        if rs1 ≠ 0 ∧ rs2 = 0 then
          -- C.JR
          (rs1 <<< 15) ||| 0x67
        else if rs1 ≠ 0 ∧ rs2 ≠ 0 then
          -- C.MV
          (rs2 <<< 20) ||| (rs1 <<< 7) ||| 0x33
        else 0xffffffff
      else
        if rs1 = 0 ∧ rs2 = 0 then
          -- C.EBREAK
          0x00100073
        else if rs1 ≠ 0 ∧ rs2 = 0 then
          -- C.JALR
          (rs1 <<< 15) ||| (1 <<< 7) ||| 0x67
        else if rs1 ≠ 0 ∧ rs2 ≠ 0 then
          -- C.ADD
          (rs2 <<< 20) ||| (rs1 <<< 15) ||| (rs1 <<< 7) ||| 0x33
        else 0xffffffff
    else if funct3 = 5 then
      -- C.FSDSP
      let rs2 := (halfword >>> 2) &&& 0x1f
      let offset := ((halfword >>> 7) &&& 0x38) ||| ((halfword >>> 1) &&& 0x1c0)
      let imm11_5 := (offset >>> 5) &&& 0x3f
      let imm4_0 := offset &&& 0x1f
      (imm11_5 <<< 25) ||| (rs2 <<< 20) ||| (2 <<< 15) ||| (3 <<< 12) |||
        (imm4_0 <<< 7) ||| 0x27
    else if funct3 = 6 then
      -- C.SWSP
      let rs2 := (halfword >>> 2) &&& 0x1f
      let offset := ((halfword >>> 7) &&& 0x3c) ||| ((halfword >>> 1) &&& 0xc0)
      let imm11_5 := (offset >>> 5) &&& 0x3f
      let imm4_0 := offset &&& 0x1f
      (imm11_5 <<< 25) ||| (rs2 <<< 20) ||| (2 <<< 15) ||| (2 <<< 12) |||
        (imm4_0 <<< 7) ||| 0x23
    else
      -- C.SDSP
      let rs2 := (halfword >>> 2) &&& 0x1f
      let offset := ((halfword >>> 7) &&& 0x38) ||| ((halfword >>> 1) &&& 0x1c0)
      let imm11_5 := (offset >>> 5) &&& 0x3f
      let imm4_0 := offset &&& 0x1f
      (imm11_5 <<< 25) ||| (rs2 <<< 20) ||| (2 <<< 15) ||| (3 <<< 12) |||
        (imm4_0 <<< 7) ||| 0x23
  else 0xffffffff

/-!
Trap and interrupt delivery, after Cpu::handle_trap, Cpu::handle_interrupt
and Cpu::tick.  Complemented u32 masks as constants: !0x1888 = 0xffffe777,
!0x122 = 0xfffffedd.
-/

inductive HTRes where
  | taken
  | notTaken
  | panicked
deriving DecidableEq

/-- The part of Cpu::handle_trap after the interrupt-enable gating: stack
status, record epc/cause/tval, move PC to the vector.  A trap routed to
User mode reaches the source's "Not implemented yet" panic after PC and
the U-mode CSRs were already written. -/
def Machine.handle_trap_take (s : Machine) (trap : Trap) (instruction_address : Nat)
    (current_privilege_encoding : Nat) (new_privilege_mode : PrivilegeMode)
    (cause : Nat) : HTRes × Machine :=
  let s1 := { s with privilege_mode := new_privilege_mode,
                     mmu := { s.mmu with privilege_mode := new_privilege_mode } }
  let csr_epc_address := match new_privilege_mode with
    | .machine => CSR_MEPC_ADDRESS
    | .supervisor => CSR_SEPC_ADDRESS
    | _ => CSR_UEPC_ADDRESS
  let csr_cause_address := match new_privilege_mode with
    | .machine => CSR_MCAUSE_ADDRESS
    | .supervisor => CSR_SCAUSE_ADDRESS
    | _ => CSR_UCAUSE_ADDRESS
  let csr_tval_address := match new_privilege_mode with
    | .machine => CSR_MTVAL_ADDRESS
    | .supervisor => CSR_STVAL_ADDRESS
    | _ => CSR_UTVAL_ADDRESS
  let csr_tvec_address := match new_privilege_mode with
    | .machine => CSR_MTVEC_ADDRESS
    | .supervisor => CSR_STVEC_ADDRESS
    | _ => CSR_UTVEC_ADDRESS
  let s2 := s1.write_csr_raw csr_epc_address instruction_address
  let s3 := s2.write_csr_raw csr_cause_address cause
  let s4 := s3.write_csr_raw csr_tval_address trap.value
  let s5 := { s4 with pc := s4.read_csr_raw csr_tvec_address }
  let s6 := if Nat.land s5.pc 0x3 ≠ 0 then
      { s5 with pc := (Nat.land s5.pc 0xfffffffc + 4 * Nat.land cause 0xffff) % U32M }
    else s5
  match new_privilege_mode with
  | .machine =>
    let status := s6.read_csr_raw CSR_MSTATUS_ADDRESS
    let mie := Nat.land (status >>> 3) 1
    let new_status := Nat.lor (Nat.lor (Nat.land status 0xffffe777) (mie <<< 7))
      (current_privilege_encoding <<< 11)
    (.taken, s6.write_csr_raw CSR_MSTATUS_ADDRESS new_status)
  | .supervisor =>
    let status := s6.read_csr_raw CSR_SSTATUS_ADDRESS
    let sie := Nat.land (status >>> 1) 1
    let new_status := Nat.lor (Nat.lor (Nat.land status 0xfffffedd) (sie <<< 5))
      (Nat.land current_privilege_encoding 1 <<< 8)
    (.taken, s6.write_csr_raw CSR_SSTATUS_ADDRESS new_status)
  | .user => (.panicked, s6)
  | .reserved => (.panicked, s6)

/-- Cpu::handle_trap.  The source panics on entry when the current
privilege mode is Reserved (get_privilege_encoding). -/
def Machine.handle_trap (s : Machine) (trap : Trap) (instruction_address : Nat)
    (is_interrupt : Bool) : HTRes × Machine :=
  match get_privilege_encoding s.privilege_mode with
  | none => (.panicked, s)
  | some current_privilege_encoding =>
    let cause := get_trap_cause trap
    let mdeleg := if is_interrupt then s.read_csr_raw CSR_MIDELEG_ADDRESS
      else s.read_csr_raw CSR_MEDELEG_ADDRESS
    let sdeleg := if is_interrupt then s.read_csr_raw CSR_SIDELEG_ADDRESS
      else s.read_csr_raw CSR_SEDELEG_ADDRESS
    let pos := Nat.land cause 0xffff
    let new_privilege_mode :=
      if Nat.land (mdeleg >>> pos) 1 = 0 then PrivilegeMode.machine
      else if Nat.land (sdeleg >>> pos) 1 = 0 then PrivilegeMode.supervisor
      else PrivilegeMode.user
    let new_privilege_encoding := (get_privilege_encoding new_privilege_mode).getD 0
    let current_status := match s.privilege_mode with
      | .machine => s.read_csr_raw CSR_MSTATUS_ADDRESS
      | .supervisor => s.read_csr_raw CSR_SSTATUS_ADDRESS
      | .user => s.read_csr_raw CSR_USTATUS_ADDRESS
      | .reserved => 0  -- unreachable: the entry match already panicked
    if is_interrupt then
      let ie := match new_privilege_mode with
        | .machine => s.read_csr_raw CSR_MIE_ADDRESS
        | .supervisor => s.read_csr_raw CSR_SIE_ADDRESS
        | .user => s.read_csr_raw CSR_UIE_ADDRESS
        | .reserved => 0  -- unreachable: the delegation choice never yields Reserved
      let current_mie := Nat.land (current_status >>> 3) 1
      let current_sie := Nat.land (current_status >>> 1) 1
      let current_uie := Nat.land current_status 1
      let msie := Nat.land (ie >>> 3) 1
      let ssie := Nat.land (ie >>> 1) 1
      let usie := Nat.land ie 1
      let mtie := Nat.land (ie >>> 7) 1
      let stie := Nat.land (ie >>> 5) 1
      let utie := Nat.land (ie >>> 4) 1
      let meie := Nat.land (ie >>> 11) 1
      let seie := Nat.land (ie >>> 9) 1
      let ueie := Nat.land (ie >>> 8) 1
      if new_privilege_encoding < current_privilege_encoding then (.notTaken, s)
      else if current_privilege_encoding == new_privilege_encoding &&
          (match s.privilege_mode with
            | .machine => current_mie == 0
            | .supervisor => current_sie == 0
            | .user => current_uie == 0
            | .reserved => false) then (.notTaken, s)
      else if (match trap.trap_type with
          | .userSoftwareInterrupt => usie == 0
          | .supervisorSoftwareInterrupt => ssie == 0
          | .machineSoftwareInterrupt => msie == 0
          | .userTimerInterrupt => utie == 0
          | .supervisorTimerInterrupt => stie == 0
          | .machineTimerInterrupt => mtie == 0
          | .userExternalInterrupt => ueie == 0
          | .supervisorExternalInterrupt => seie == 0
          | .machineExternalInterrupt => meie == 0
          | _ => false) then (.notTaken, s)
      else s.handle_trap_take trap instruction_address current_privilege_encoding
        new_privilege_mode cause
    else
      s.handle_trap_take trap instruction_address current_privilege_encoding
        new_privilege_mode cause

inductive HIRes where
  | done
  | panicked
deriving DecidableEq

/-- One pending-bit check of Cpu::handle_interrupt; on a taken interrupt
the consumed xIP bit is cleared and wfi released, otherwise the next
check runs. -/
def interruptCheck (s : Machine) (minterrupt : Nat) (bit : Nat) (tt : TrapType)
    (instruction_address : Nat) (next : Machine → HIRes × Machine) : HIRes × Machine :=
  if Nat.land minterrupt bit ≠ 0 then
    match s.handle_trap ⟨tt, s.pc⟩ instruction_address true with
    | (.panicked, s1) => (.panicked, s1)
    | (.taken, s1) =>
      let s2 := s1.write_csr_raw CSR_MIP_ADDRESS
        (Nat.land (s1.read_csr_raw CSR_MIP_ADDRESS) (Nat.xor 0xffffffff bit))
      (.done, { s2 with wfi := false })
    | (.notTaken, s1) => next s1
  else next s

/-- Cpu::handle_interrupt: pending interrupts evaluated in the order
MEIP, MSIP, MTIP, SEIP, SSIP, STIP. -/
def Machine.handle_interrupt (s : Machine) (instruction_address : Nat) :
    HIRes × Machine :=
  let minterrupt := Nat.land (s.read_csr_raw CSR_MIP_ADDRESS) (s.read_csr_raw CSR_MIE_ADDRESS)
  interruptCheck s minterrupt MIP_MEIP .machineExternalInterrupt instruction_address
    (fun sa => interruptCheck sa minterrupt MIP_MSIP .machineSoftwareInterrupt instruction_address
      (fun sb => interruptCheck sb minterrupt MIP_MTIP .machineTimerInterrupt instruction_address
        (fun sc => interruptCheck sc minterrupt MIP_SEIP .supervisorExternalInterrupt instruction_address
          (fun sd => interruptCheck sd minterrupt MIP_SSIP .supervisorSoftwareInterrupt instruction_address
            (fun se => interruptCheck se minterrupt MIP_STIP .supervisorTimerInterrupt instruction_address
              (fun sf => (.done, sf)))))))

inductive TickOpOut where
  | ok
  | trap (t : Trap)
  /-- Decode failure in the tick path hits the source's
  "Unknown instruction" panic, not a trap. -/
  | panicUnknownInstruction
  | panicOther
deriving DecidableEq

/-- Cpu::tick_operate: wfi gate, fetch, compressed expansion, decode,
execute, x0 restore. -/
def Machine.tick_operate (s : Machine) : TickOpOut × Machine :=
  if s.wfi then
    if Nat.land (s.read_csr_raw CSR_MIE_ADDRESS) (s.read_csr_raw CSR_MIP_ADDRESS) ≠ 0 then
      (.ok, { s with wfi := false })
    else (.ok, s)
  else
    match s.fetch with
    | (.trap e, s1) => (.trap e, s1)
    | (.panicked, s1) => (.panicOther, s1)
    | (.ok original_word, s1) =>
      let instruction_address := s1.pc
      if Nat.land original_word 0x3 = 0x3 then
        let s2 := { s1 with pc := (s1.pc + 4) % U32M }
        match decode_and_get_instruction_index original_word with
        | none => (.panicUnknownInstruction, s2)
        | some index =>
          match runInstruction index s2 original_word instruction_address with
          | (.ok, s3) => (.ok, { s3 with x := Function.update s3.x 0 0 })
          | (.trap t, s3) => (.trap t, { s3 with x := Function.update s3.x 0 0 })
          | (.panicked, s3) => (.panicOther, s3)
      else
        let word := uncompress (Nat.land original_word 0xffff)
        let s2 := { s1 with pc := (s1.pc + 2) % U32M }
        match decode_and_get_instruction_index word with
        | none => (.panicUnknownInstruction, s2)
        | some index =>
          match runInstruction index s2 word instruction_address with
          | (.ok, s3) => (.ok, { s3 with x := Function.update s3.x 0 0 })
          | (.trap t, s3) => (.trap t, { s3 with x := Function.update s3.x 0 0 })
          | (.panicked, s3) => (.panicOther, s3)

inductive TickResult where
  | ok
  | exitThread (code : Nat)
  | pauseEmulation
  | cpuTrap (t : Trap)
  | panicUnknownInstruction
  | panicOther
deriving DecidableEq

/-- Cpu::tick: one fetch-decode-execute cycle followed by the MMU tick
(a no-op), interrupt delivery, and the clock/cycle update. -/
def Machine.tick (s : Machine) : TickResult × Machine :=
  match s.tick_operate with
  | (.panicUnknownInstruction, s1) => (.panicUnknownInstruction, s1)
  | (.panicOther, s1) => (.panicOther, s1)
  | (.trap t, s1) =>
    if t.trap_type = .pauseEmulation then (.pauseEmulation, s1)
    else if t.trap_type = .instructionPageFault ∧ t.value = 0xff803000 then
      (.exitThread (u32ofI32 (s1.read_register 10)), s1)
    else (.cpuTrap t, s1)
  | (.ok, s1) =>
    match s1.handle_interrupt s1.pc with
    | (.panicked, s2) => (.panicOther, s2)
    | (.done, s2) =>
      let s3 := { s2 with clock := (s2.clock + 1) % U32M }
      let s4 := s3.write_csr_raw CSR_CYCLE_ADDRESS (u32 (s3.clock * 8))
      (.ok, s4)

/-!
Process-level memory manager and syscall dispatch, after src/src/xous.rs.

The backing store (impl riscv_cpu::cpu::Memory for Memory) is the same
sparse page map as Mem above.  The BTreeSets of allocated and free pages
are modelled as lists with set semantics: pop_first takes the minimum,
insert panics (assert!) when the element is already present.  Rust
panics (out of memory, assertion failures) are the panicked outcome.
-/

def MMUFLAG_VALID : Nat := 0x01
def MMUFLAG_READABLE : Nat := 0x02
def MMUFLAG_WRITABLE : Nat := 0x04
def MMUFLAG_EXECUTABLE : Nat := 0x8
def MMUFLAG_USERMODE : Nat := 0x10
def MMUFLAG_ACCESSED : Nat := 0x40
def MMUFLAG_DIRTY : Nat := 0x80

inductive XRes (α : Type) where
  | ok (a : α)
  | panicked
deriving DecidableEq

inductive ServiceKind where
  | ticktimer
  | logService
  | nameService
deriving DecidableEq

structure XMemory where
  base : Nat
  mem : Mem
  allocated_pages : List Nat
  free_pages : List Nat
  heap_start : Nat
  heap_size : Nat
  allocation_previous : Nat
  l1_pt : Nat
  satp : Nat
  connections : List ServiceKind

/-- Memory::allocate_page: pop the smallest free page, move it to the
allocated set; panics when the pool is empty, on a double allocation, or
on the zero page. -/
def XMemory.allocate_page (m : XMemory) : XRes Nat × XMemory :=
  match m.free_pages.min? with
  | none => (.panicked, m)
  | some phys =>
    let m1 := { m with free_pages := m.free_pages.erase phys }
    if phys ∈ m1.allocated_pages then (.panicked, m1)
    else
      let m2 := { m1 with allocated_pages := phys :: m1.allocated_pages }
      if phys = 0 then (.panicked, m2)
      else (.ok phys, m2)

/-- Memory::virt_to_phys: walk the process page table kept at l1_pt. -/
def XMemory.virt_to_phys (m : XMemory) (virt : Nat) : Option Nat :=
  let vpn1 := Nat.land (virt >>> 22) 0x3ff * 4
  let vpn0 := Nat.land (virt >>> 12) 0x3ff * 4
  let offset := Nat.land virt 0xfff
  let l1_pt_entry := m.mem.read_u32 (m.l1_pt + vpn1)
  if Nat.land l1_pt_entry MMUFLAG_VALID = 0 then none
  else if Nat.land l1_pt_entry
      (MMUFLAG_EXECUTABLE ||| MMUFLAG_READABLE ||| MMUFLAG_WRITABLE) ≠ 0 then none
  else
    let l0_pt_entry := m.mem.read_u32 (((l1_pt_entry >>> 10) <<< 12) + vpn0)
    if Nat.land l0_pt_entry MMUFLAG_VALID = 0 then none
    else some (Nat.lor ((l0_pt_entry >>> 10) <<< 12) offset)

/-- Memory::ensure_page: allocate the level-0 table and the physical page
on demand and hook them into the page table; the trailing assertions
panic if the mapped page is not accounted as allocated. -/
def XMemory.ensure_page (m : XMemory) (address : Nat) : XRes Unit × XMemory :=
  let vpn1 := Nat.land (address >>> 22) 0x3ff * 4
  let vpn0 := Nat.land (address >>> 12) 0x3ff * 4
  let l1_pt_entry := m.mem.read_u32 (m.l1_pt + vpn1)
  let step1 : XRes Nat × XMemory :=
    if Nat.land l1_pt_entry MMUFLAG_VALID = 0 then
      match m.allocate_page with
      | (.panicked, m1) => (.panicked, m1)
      | (.ok l0_pt_phys, m1) =>
        let entry := Nat.lor ((l0_pt_phys >>> 12) <<< 10)
          (MMUFLAG_VALID ||| MMUFLAG_DIRTY ||| MMUFLAG_ACCESSED)
        (.ok entry, { m1 with mem := m1.mem.write_u32 (m1.l1_pt + vpn1) entry })
    else (.ok l1_pt_entry, m)
  match step1 with
  | (.panicked, m1) => (.panicked, m1)
  | (.ok entry1, m1) =>
    let l0_pt_phys := ((entry1 >>> 10) <<< 12) + vpn0
    let l0_pt_entry := m1.mem.read_u32 l0_pt_phys
    let step2 : XRes Nat × XMemory :=
      if Nat.land l0_pt_entry MMUFLAG_VALID = 0 then
        match m1.allocate_page with
        | (.panicked, m2) => (.panicked, m2)
        | (.ok page_phys, m2) =>
          let entry := Nat.lor ((page_phys >>> 12) <<< 10)
            (MMUFLAG_VALID ||| MMUFLAG_WRITABLE ||| MMUFLAG_READABLE |||
              MMUFLAG_EXECUTABLE ||| MMUFLAG_USERMODE ||| MMUFLAG_DIRTY |||
              MMUFLAG_ACCESSED)
          (.ok entry, { m2 with mem := m2.mem.write_u32 l0_pt_phys entry })
      else (.ok l0_pt_entry, m1)
    match step2 with
    | (.panicked, m2) => (.panicked, m2)
    | (.ok entry2, m2) =>
      if ((entry2 >>> 10) <<< 12) ∈ m2.allocated_pages ∧
          ((entry2 >>> 10) <<< 12) ∉ m2.free_pages then (.ok (), m2)
      else (.panicked, m2)

/-- The pages visited by a step_by(4096) loop over [start, start+size). -/
def pagesOfRun (start size : Nat) : List Nat :=
  (List.range ((size + 4095) / 4096)).map (fun i => start + 4096 * i)

/-- The first already-mapped page of a candidate run, if any (the inner
loop of Memory::allocate_virt_region). -/
def XMemory.firstMappedPage (m : XMemory) (start size : Nat) : Option Nat :=
  (pagesOfRun start size).find? (fun page => (m.virt_to_phys page).isSome)

/-- The outer scan loop of Memory::allocate_virt_region.  The source loop
is unbounded (it walks forward until a free run appears); fuel counts its
iterations in the model. -/
def XMemory.find_free_run (m : XMemory) (start size : Nat) : Nat → Option Nat
  | 0 => none
  | fuel + 1 =>
    match m.firstMappedPage start size with
    | none => some start
    | some page => m.find_free_run (page + 4096) size fuel

def XMemory.ensure_run (m : XMemory) : List Nat → XRes Unit × XMemory
  | [] => (.ok (), m)
  | p :: rest =>
    match m.ensure_page p with
    | (.ok _, m1) => m1.ensure_run rest
    | (.panicked, m1) => (.panicked, m1)

inductive AllocRes where
  | ok (result : Option Nat)
  | panicked
  /-- The model ran out of fuel for the source's unbounded scan loop. -/
  | fuelOut
deriving DecidableEq

/-- Memory::allocate_virt_region: scan from the rolling cursor for a run
of unmapped pages, ensure each page of the run, then advance the cursor
past the run plus one page and return the start. -/
def XMemory.allocate_virt_region (m : XMemory) (size : Nat) (fuel : Nat) :
    AllocRes × XMemory :=
  let start := m.allocation_previous
  match m.find_free_run start size fuel with
  | none => (.fuelOut, m)
  | some start1 =>
    match m.ensure_run (pagesOfRun start1 size) with
    | (.panicked, m1) => (.panicked, m1)
    | (.ok _, m1) =>
      (.ok (some start1), { m1 with allocation_previous := start1 + size + 4096 })

/-!
Service lookup and the Connect syscall, after src/src/xous/services.rs
get_service and the Syscall::Connect arm of Memory::syscall.  get_service
has return type Option but no branch ever builds None: unknown names hit
the "Unhandled service request" panic.
-/

def get_service (n0 n1 n2 n3 : Nat) : XRes (Option ServiceKind) :=
  if n0 = 0x6b636974 ∧ n1 = 0x656d6974 ∧ n2 = 0x65732d72 ∧ n3 = 0x72657672 then
    .ok (some .ticktimer)
  else if n0 = 0x73756f78 ∧ n1 = 0x676f6c2d ∧ n2 = 0x7265732d ∧ n3 = 0x20726576 then
    .ok (some .logService)
  else if n0 = 0x73756f78 ∧ n1 = 0x6d616e2d ∧ n2 = 0x65732d65 ∧ n3 = 0x72657672 then
    .ok (some .nameService)
  else .panicked

inductive SyscallOut where
  | regs (r : List Int)
  | panicked
deriving DecidableEq

/-- SyscallResultNumber::ConnectionId. -/
def RESULT_CONNECTION_ID : Int := 7

/-- The Syscall::Connect arm of Memory::syscall: a found service gets
connection id connections.len() + 1; the fallback arm answers with
connection id 0 (it is dead code because get_service never returns None,
it panics instead). -/
def XMemory.syscall_connect (m : XMemory) (n0 n1 n2 n3 : Nat) :
    SyscallOut × XMemory :=
  match get_service n0 n1 n2 n3 with
  | .panicked => (.panicked, m)
  | .ok (some service) =>
    let connection_id := m.connections.length + 1
    (.regs [RESULT_CONNECTION_ID, (connection_id : Int), 0, 0, 0, 0, 0, 0],
      { m with connections := m.connections ++ [service] })
  | .ok none =>
    (.regs [RESULT_CONNECTION_ID, 0, 0, 0, 0, 0, 0, 0], m)

/-!
Concrete machine states used by the theorems below: the spec's own
end-to-end scenarios (an ADDI at 0x8000_0000 under a pending machine
timer interrupt) and small page-table setups.
-/

/-- A single mapped page at 0x8000_0000 holding the word 0x00108093
(addi x1, x1, 1) at its start. -/
def memAddi : Mem :=
  { pages := fun p => p == 0x80000000
    bytes := fun a =>
      if a = 0x80000000 then 0x93 else if a = 0x80000001 then 0x80
      else if a = 0x80000002 then 0x10 else 0
    reservations := fun _ => none }

/-- CSR file with mie = mip = MIP_MTIP, mtvec = 0x1000_0000 and the given
mstatus; every other CSR is zero. -/
def csrTimer (mstatus : Nat) : Nat → Nat := fun a =>
  if a = CSR_MIE_ADDRESS then 0x80 else if a = CSR_MIP_ADDRESS then 0x80
  else if a = CSR_MTVEC_ADDRESS then 0x10000000
  else if a = CSR_MSTATUS_ADDRESS then mstatus else 0

def machineTimer (mstatus : Nat) : Machine :=
  { clock := 0, privilege_mode := .machine, wfi := false, x := fun _ => 0
    pc := 0x80000000, csr := csrTimer mstatus
    mmu := { ppn := 0, addressing_mode := .none, privilege_mode := .machine, mstatus := 0 }
    mem := memAddi, sysc := fun _ => .cont }

/-- A single mapped page at 0x8000_0000 holding 0xffffffff, a word that
matches no instruction-table entry. -/
def memInvalid : Mem :=
  { pages := fun p => p == 0x80000000
    bytes := fun a => if pageOf a = 0x80000000 && a < 0x80000004 then 0xff else 0
    reservations := fun _ => none }

def machineInvalid : Machine :=
  { clock := 0, privilege_mode := .machine, wfi := false, x := fun _ => 0
    pc := 0x80000000, csr := fun _ => 0
    mmu := { ppn := 0, addressing_mode := .none, privilege_mode := .machine, mstatus := 0 }
    mem := memInvalid, sysc := fun _ => .cont }

/-- wrap32 is the identity on values already in the i32 range. -/
theorem i32wrap_of_range (v : Int) (h1 : -2147483648 ≤ v) (h2 : v < 2147483648) :
    i32wrap v = v := by
  unfold i32wrap i32ofU32 u32ofI32 U32M
  split
  · omega
  · omega

/-- Claim C2: for every pair of source register values, DIV by zero
writes -1 to rd, DIVU by zero writes the all-ones word (-1 as i32), REM
and REMU by zero write the dividend unchanged, and the signed-overflow
cases DIV(INT32_MIN, -1) = INT32_MIN and REM(INT32_MIN, -1) = 0 hold. -/
theorem div_rem_edge_cases :
    (∀ (s : Machine) (word addr : Nat),
      s.x (parse_format_r word).rs2 = 0 →
      (op_DIV s word addr).2.x (parse_format_r word).rd = -1 ∧
      (op_DIVU s word addr).2.x (parse_format_r word).rd = -1 ∧
      (op_REM s word addr).2.x (parse_format_r word).rd = s.x (parse_format_r word).rs1 ∧
      (-2147483648 ≤ s.x (parse_format_r word).rs1 →
        s.x (parse_format_r word).rs1 < 2147483648 →
        (op_REMU s word addr).2.x (parse_format_r word).rd = s.x (parse_format_r word).rs1)) ∧
    (∀ (s : Machine) (word addr : Nat),
      s.x (parse_format_r word).rs1 = -2147483648 →
      s.x (parse_format_r word).rs2 = -1 →
      (op_DIV s word addr).2.x (parse_format_r word).rd = -2147483648 ∧
      (op_REM s word addr).2.x (parse_format_r word).rd = 0) := by
  constructor
  · intro s word addr h
    refine ⟨?_, ?_, ?_, ?_⟩
    · simp [op_DIV, h, updX]
    · simp [op_DIVU, h, updX, u32ofI32]
    · simp [op_REM, h, updX]
    · intro h1 h2
      have hz : u32ofI32 (s.x (parse_format_r word).rs2) = 0 := by
        rw [h]; rfl
      simp only [op_REMU, hz, if_pos rfl, updX]
      simp only [Function.update_same]
      have : i32ofU32 (u32ofI32 (s.x (parse_format_r word).rs1)) =
          s.x (parse_format_r word).rs1 := i32wrap_of_range _ h1 h2
      exact this
  · intro s word addr h1 h2
    constructor
    · have : ¬ (s.x (parse_format_r word).rs2 = 0) := by rw [h2]; decide
      simp [op_DIV, h1, h2, updX, most_negative, this]
    · have : ¬ (s.x (parse_format_r word).rs2 = 0) := by rw [h2]; decide
      simp [op_REM, h1, h2, updX, most_negative, this]

/-- A machine for exercising the M-extension edge cases: x1 = 5,
x2 = 0, x4 = INT32_MIN, x5 = -1. -/
def machineDiv : Machine :=
  { clock := 0, privilege_mode := .machine, wfi := false
    x := fun i => if i = 1 then 5 else if i = 4 then -2147483648
      else if i = 5 then -1 else 0
    pc := 0, csr := fun _ => 0
    mmu := { ppn := 0, addressing_mode := .none, privilege_mode := .machine, mstatus := 0 }
    mem := memAddi, sysc := fun _ => .cont }

/-- Witness for C2 at concrete operands: rd = 3, rs1 = 1 (value 5),
rs2 = 2 (value 0) for the zero-divisor cases, and rs1 = 4 (INT32_MIN),
rs2 = 5 (-1) for the overflow cases. -/
theorem div_rem_edge_cases_witness :
    (op_DIV machineDiv ((2 <<< 20) ||| (1 <<< 15) ||| (3 <<< 7)) 0).2.x 3 = -1 ∧
    (op_DIVU machineDiv ((2 <<< 20) ||| (1 <<< 15) ||| (3 <<< 7)) 0).2.x 3 = -1 ∧
    (op_REM machineDiv ((2 <<< 20) ||| (1 <<< 15) ||| (3 <<< 7)) 0).2.x 3 = 5 ∧
    (op_REMU machineDiv ((2 <<< 20) ||| (1 <<< 15) ||| (3 <<< 7)) 0).2.x 3 = 5 ∧
    (op_DIV machineDiv ((5 <<< 20) ||| (4 <<< 15) ||| (3 <<< 7)) 0).2.x 3 = -2147483648 ∧
    (op_REM machineDiv ((5 <<< 20) ||| (4 <<< 15) ||| (3 <<< 7)) 0).2.x 3 = 0 := by
  have hz := div_rem_edge_cases.1 machineDiv ((2 <<< 20) ||| (1 <<< 15) ||| (3 <<< 7)) 0
    (by decide)
  have ho := div_rem_edge_cases.2 machineDiv ((5 <<< 20) ||| (4 <<< 15) ||| (3 <<< 7)) 0
    (by decide) (by decide)
  refine ⟨?_, ?_, ?_, ?_, ?_, ?_⟩
  · simpa using hz.1
  · simpa using hz.2.1
  · simpa using hz.2.2.1
  · simpa using hz.2.2.2 (by decide) (by decide)
  · simpa using ho.1
  · simpa using ho.2

/-- Claim C3: with mie = mip = MIP_MTIP, mtvec = 0x1000_0000 and the tick
starting in Machine mode at an addi instruction: when mstatus = 0x8 the
machine timer interrupt is taken during the tick, so PC ends at
0x1000_0000, mcause reads 0x8000_0007 and the MTIP bit of mip is cleared;
when mstatus = 0 the interrupt is gated off, the addi executes and PC
advances to PC + 4 with mip and mcause untouched. -/
theorem machine_timer_interrupt_tick :
    ((machineTimer 0x8).tick).2.pc = 0x10000000 ∧
    ((machineTimer 0x8).tick).2.csr CSR_MCAUSE_ADDRESS = 0x80000007 ∧
    Nat.land (((machineTimer 0x8).tick).2.csr CSR_MIP_ADDRESS) MIP_MTIP = 0 ∧
    ((machineTimer 0).tick).1 = .ok ∧
    ((machineTimer 0).tick).2.pc = 0x80000004 ∧
    ((machineTimer 0).tick).2.x 1 = 1 ∧
    ((machineTimer 0).tick).2.csr CSR_MCAUSE_ADDRESS = 0 ∧
    Nat.land (((machineTimer 0).tick).2.csr CSR_MIP_ADDRESS) MIP_MTIP = MIP_MTIP := by
  decide

/-- Claim C5: register x0 is hardwired to zero.  Part one: after
write_register(r, v), read_register(r) yields 0 for r = 0 and v
otherwise.  Part two: whenever the tick executes an instruction (the
fetch produced a word, decode matched an entry, and the handler did not
panic), the tick loop forces x[0] back to 0 after the handler ran,
whatever the handler wrote. -/
theorem x0_hardwired_zero :
    (∀ (s : Machine) (r : Nat) (v : Int), r ≤ 31 →
      ((s.write_register r v).read_register r) = if r = 0 then 0 else v) ∧
    (∀ (s : Machine) (w index : Nat),
      s.wfi = false →
      (s.fetch).1 = MRes.ok w →
      decode_and_get_instruction_index
        (if Nat.land w 0x3 = 0x3 then w else uncompress (Nat.land w 0xffff)) = some index →
      (s.tick_operate).1 ≠ .panicOther →
      (s.tick_operate).2.x 0 = 0) := by
  constructor
  · intro s r v _
    match r with
    | 0 => simp [Machine.write_register, Machine.read_register]
    | r + 1 => simp [Machine.write_register, Machine.read_register]
  · intro s w index hwfi hf hd hnp
    rcases hfp : s.fetch with ⟨fr, s1⟩
    rw [hfp] at hf
    simp only at hf
    subst hf
    by_cases hc : Nat.land w 0x3 = 0x3
    · rw [if_pos hc] at hd
      rcases hrun : runInstruction index { s1 with pc := (s1.pc + 4) % U32M } w s1.pc
        with ⟨ro, s3⟩
      cases ro with
      | ok =>
        simp [Machine.tick_operate, hwfi, hfp, hc, hd, hrun]
      | trap t =>
        simp [Machine.tick_operate, hwfi, hfp, hc, hd, hrun]
      | panicked =>
        exfalso
        apply hnp
        simp [Machine.tick_operate, hwfi, hfp, hc, hd, hrun]
    · rw [if_neg hc] at hd
      rcases hrun : runInstruction index { s1 with pc := (s1.pc + 2) % U32M }
        (uncompress (Nat.land w 0xffff)) s1.pc with ⟨ro, s3⟩
      cases ro with
      | ok =>
        simp [Machine.tick_operate, hwfi, hfp, hc, hd, hrun]
      | trap t =>
        simp [Machine.tick_operate, hwfi, hfp, hc, hd, hrun]
      | panicked =>
        exfalso
        apply hnp
        simp [Machine.tick_operate, hwfi, hfp, hc, hd, hrun]

/-- Witness for C5: the write/read law at r = 0 and r = 7, and the tick
restore on the concrete addi machine (whose instruction is
addi x1, x1, 1, an executed instruction). -/
theorem x0_hardwired_zero_witness :
    ((machineTimer 0).write_register 0 5).read_register 0 = 0 ∧
    ((machineTimer 0).write_register 7 5).read_register 7 = 5 ∧
    ((machineTimer 0).tick_operate).2.x 0 = 0 := by
  refine ⟨?_, ?_, ?_⟩
  · simpa using x0_hardwired_zero.1 (machineTimer 0) 0 5 (by decide)
  · simpa using x0_hardwired_zero.1 (machineTimer 0) 7 5 (by decide)
  · exact x0_hardwired_zero.2 (machineTimer 0) 0x00108093 1 (by decide) (by decide)
      (by decide) (by decide)

/-- Masked read-modify-write: the masked bits of the stored value come
from the new value (m and inv are disjoint bit masks). -/
theorem land_lor_mask_new (old v m inv : Nat) (hmi : m &&& inv = 0) :
    ((old &&& inv) ||| (v &&& m)) &&& m = v &&& m := by
  apply Nat.eq_of_testBit_eq
  intro i
  have h := congrArg (fun n => Nat.testBit n i) hmi
  simp only [Nat.testBit_land, Nat.zero_testBit] at h
  simp only [Nat.testBit_land, Nat.testBit_lor]
  cases hm : Nat.testBit m i <;> cases hv : Nat.testBit inv i <;> simp_all

/-- Masked read-modify-write: the bits outside the mask keep their old
values (m and inv are disjoint bit masks). -/
theorem land_lor_mask_old (old v m inv : Nat) (hmi : m &&& inv = 0) :
    ((old &&& inv) ||| (v &&& m)) &&& inv = old &&& inv := by
  apply Nat.eq_of_testBit_eq
  intro i
  have h := congrArg (fun n => Nat.testBit n i) hmi
  simp only [Nat.testBit_land, Nat.zero_testBit] at h
  simp only [Nat.testBit_land, Nat.testBit_lor]
  cases hm : Nat.testBit m i <;> cases hv : Nat.testBit inv i <;> simp_all

/-- Masking is idempotent: a value already cut to a mask has no bit
outside it. -/
theorem land_land_self (a m : Nat) : (a &&& m) &&& m = a &&& m := by
  apply Nat.eq_of_testBit_eq
  intro i
  simp only [Nat.testBit_land]
  cases Nat.testBit a i <;> cases Nat.testBit m i <;> simp

/-- Claim C6: SSTATUS reads as MSTATUS & 0x800d_e162 and SIE/SIP read as
MIE/MIP & 0x222, revealing no bit outside the mask; a write through the
alias replaces exactly the masked bits of the underlying CSR with the
value's masked bits and leaves every bit outside the mask unchanged
(0x7ff21e9d and 0xfffffddd are the in-word complements of the masks). -/
theorem sstatus_sie_sip_masked_alias :
    (∀ s : Machine,
      s.read_csr_raw CSR_SSTATUS_ADDRESS = Nat.land (s.csr CSR_MSTATUS_ADDRESS) 0x800de162 ∧
      Nat.land (s.read_csr_raw CSR_SSTATUS_ADDRESS) 0x800de162 =
        s.read_csr_raw CSR_SSTATUS_ADDRESS ∧
      s.read_csr_raw CSR_SIE_ADDRESS = Nat.land (s.csr CSR_MIE_ADDRESS) 0x222 ∧
      Nat.land (s.read_csr_raw CSR_SIE_ADDRESS) 0x222 = s.read_csr_raw CSR_SIE_ADDRESS ∧
      s.read_csr_raw CSR_SIP_ADDRESS = Nat.land (s.csr CSR_MIP_ADDRESS) 0x222 ∧
      Nat.land (s.read_csr_raw CSR_SIP_ADDRESS) 0x222 = s.read_csr_raw CSR_SIP_ADDRESS) ∧
    (∀ (s : Machine) (v : Nat),
      Nat.land ((s.write_csr_raw CSR_SSTATUS_ADDRESS v).csr CSR_MSTATUS_ADDRESS) 0x800de162 =
        Nat.land v 0x800de162 ∧
      Nat.land ((s.write_csr_raw CSR_SSTATUS_ADDRESS v).csr CSR_MSTATUS_ADDRESS) 0x7ff21e9d =
        Nat.land (s.csr CSR_MSTATUS_ADDRESS) 0x7ff21e9d ∧
      Nat.land ((s.write_csr_raw CSR_SIE_ADDRESS v).csr CSR_MIE_ADDRESS) 0x222 =
        Nat.land v 0x222 ∧
      Nat.land ((s.write_csr_raw CSR_SIE_ADDRESS v).csr CSR_MIE_ADDRESS) 0xfffffddd =
        Nat.land (s.csr CSR_MIE_ADDRESS) 0xfffffddd ∧
      Nat.land ((s.write_csr_raw CSR_SIP_ADDRESS v).csr CSR_MIP_ADDRESS) 0x222 =
        Nat.land v 0x222 ∧
      Nat.land ((s.write_csr_raw CSR_SIP_ADDRESS v).csr CSR_MIP_ADDRESS) 0xfffffddd =
        Nat.land (s.csr CSR_MIP_ADDRESS) 0xfffffddd) := by
  constructor
  · intro s
    refine ⟨rfl, ?_, rfl, ?_, rfl, ?_⟩
    · exact land_land_self _ _
    · exact land_land_self _ _
    · exact land_land_self _ _
  · intro s v
    have hred1 : (s.write_csr_raw CSR_SSTATUS_ADDRESS v).csr CSR_MSTATUS_ADDRESS =
        Nat.lor (Nat.land (s.csr CSR_MSTATUS_ADDRESS) 0x7ff21e9d) (Nat.land v 0x800de162) := by
      simp [Machine.write_csr_raw, Machine.setCsr, CSR_SSTATUS_ADDRESS, CSR_FFLAGS_ADDRESS,
        CSR_FRM_ADDRESS, CSR_MSTATUS_ADDRESS]
    have hred2 : (s.write_csr_raw CSR_SIE_ADDRESS v).csr CSR_MIE_ADDRESS =
        Nat.lor (Nat.land (s.csr CSR_MIE_ADDRESS) 0xfffffddd) (Nat.land v 0x222) := by
      simp [Machine.write_csr_raw, Machine.setCsr, CSR_SIE_ADDRESS, CSR_FFLAGS_ADDRESS,
        CSR_FRM_ADDRESS, CSR_SSTATUS_ADDRESS, CSR_MIE_ADDRESS]
    have hred3 : (s.write_csr_raw CSR_SIP_ADDRESS v).csr CSR_MIP_ADDRESS =
        Nat.lor (Nat.land (s.csr CSR_MIP_ADDRESS) 0xfffffddd) (Nat.land v 0x222) := by
      simp [Machine.write_csr_raw, Machine.setCsr, CSR_SIP_ADDRESS, CSR_FFLAGS_ADDRESS,
        CSR_FRM_ADDRESS, CSR_SSTATUS_ADDRESS, CSR_SIE_ADDRESS, CSR_MIP_ADDRESS]
    refine ⟨?_, ?_, ?_, ?_, ?_, ?_⟩
    · rw [hred1]; exact land_lor_mask_new _ _ _ _ (by decide)
    · rw [hred1]; exact land_lor_mask_old _ _ _ _ (by decide)
    · rw [hred2]; exact land_lor_mask_new _ _ _ _ (by decide)
    · rw [hred2]; exact land_lor_mask_old _ _ _ _ (by decide)
    · rw [hred3]; exact land_lor_mask_new _ _ _ _ (by decide)
    · rw [hred3]; exact land_lor_mask_old _ _ _ _ (by decide)

/-- Claim C1 (amended): when the fetched word (after compressed
expansion, if any) matches no instruction-table entry, the
fetch-decode-execute tick hits the source's "Unknown instruction" panic
instead of raising a trap; the decode_raw helper alone would build an
IllegalInstruction trap, and its tval is the current PC minus 4 — equal
to the faulting PC only when the PC was advanced by a full 4 bytes. -/
theorem decode_failure_panics :
    (∀ (s : Machine) (w : Nat),
      s.wfi = false →
      (s.fetch).1 = MRes.ok w →
      decode_and_get_instruction_index
        (if Nat.land w 0x3 = 0x3 then w else uncompress (Nat.land w 0xffff)) = none →
      (s.tick).1 = .panicUnknownInstruction) ∧
    (∀ (s : Machine) (word : Nat),
      decode_and_get_instruction_index word = none →
      s.decode_raw word = .error ⟨.illegalInstruction, (s.pc + (U32M - 4)) % U32M⟩) := by
  constructor
  · intro s w hwfi hf hd
    have hop : (s.tick_operate).1 = .panicUnknownInstruction := by
      rcases hfp : s.fetch with ⟨fr, s1⟩
      rw [hfp] at hf
      simp only at hf
      subst hf
      by_cases hc : Nat.land w 0x3 = 0x3
      · rw [if_pos hc] at hd
        simp [Machine.tick_operate, hwfi, hfp, hc, hd]
      · rw [if_neg hc] at hd
        simp [Machine.tick_operate, hwfi, hfp, hc, hd]
    rcases hto : s.tick_operate with ⟨o, s1⟩
    rw [hto] at hop
    simp only at hop
    subst hop
    simp [Machine.tick, hto]
  · intro s word hd
    simp [Machine.decode_raw, hd]

/-- Witness for C1 (amended) at the concrete machine whose fetched word
is 0xffffffff. -/
theorem decode_failure_panics_witness :
    (machineInvalid.tick).1 = .panicUnknownInstruction ∧
    machineInvalid.decode_raw 0xffffffff =
      .error ⟨.illegalInstruction, (0x80000000 + (U32M - 4)) % U32M⟩ := by
  constructor
  · exact decode_failure_panics.1 machineInvalid 0xffffffff (by decide) (by decide) (by decide)
  · exact decode_failure_panics.2 machineInvalid 0xffffffff (by decide)

/-- Counterexample to C1 as stated: on the machine whose instruction word
is 0xffffffff (no table entry matches), the tick panics; it does not
produce the IllegalInstruction trap with tval 0x8000_0000 that the claim
requires. -/
theorem decode_failure_trap_counterexample :
    (machineInvalid.tick).1 = .panicUnknownInstruction ∧
    (machineInvalid.tick).1 ≠ .cpuTrap ⟨.illegalInstruction, 0x80000000⟩ := by
  decide

/-- Claim C7: uncompress is a total function of the halfword (it is a
plain Lean function here); the reserved C.ADDI4SPN encodings — quadrant
0, funct3 0, nzuimm 0 — expand to the all-ones word 0xffffffff; the word
0xffffffff matches no instruction-table entry, so the decode of any
expansion equal to it fails. -/
theorem uncompress_reserved_fails_decode :
    (∀ h : Nat,
      h &&& 0x3 = 0 →
      (h >>> 13) &&& 0x7 = 0 →
      ((h >>> 7) &&& 0x30) ||| ((h >>> 1) &&& 0x3c0) |||
        ((h >>> 4) &&& 0x4) ||| ((h >>> 2) &&& 0x8) = 0 →
      uncompress h = 0xffffffff) ∧
    decode_and_get_instruction_index 0xffffffff = none ∧
    (∀ h : Nat, uncompress h = 0xffffffff →
      decode_and_get_instruction_index (uncompress h) = none) := by
  have hnone : decode_and_get_instruction_index 0xffffffff = none := by decide
  refine ⟨?_, hnone, ?_⟩
  · intro h h1 h2 h3
    simp [uncompress, h1, h2, h3]
  · intro h hu
    rw [hu]
    exact hnone

/-- Witness for C7 at the halfword 0x0000: a C.ADDI4SPN encoding with
nzuimm = 0. -/
theorem uncompress_reserved_fails_decode_witness :
    uncompress 0 = 0xffffffff ∧
    decode_and_get_instruction_index (uncompress 0) = none := by
  constructor
  · exact uncompress_reserved_fails_decode.1 0 (by decide) (by decide) (by decide)
  · exact uncompress_reserved_fails_decode.2.2 0
      (uncompress_reserved_fails_decode.1 0 (by decide) (by decide) (by decide))

/-- In Bare addressing mode an in-page word load is a direct physical
read and leaves the machine unchanged. -/
theorem load_word_bare (s : Machine) (a : Nat)
    (hb : s.mmu.addressing_mode = .none) (ha : Nat.land a 0xfff ≤ 0xffc) :
    s.load_word a = (.ok (s.mem.read_u32 a), s) := by
  unfold Machine.load_word Machine.load_bytes Machine.translate_address
  rw [hb]
  rw [if_pos ha]
  rfl

/-- In Bare addressing mode an in-page word store is a direct physical
write. -/
theorem store_word_bare (s : Machine) (a v : Nat)
    (hb : s.mmu.addressing_mode = .none) (ha : Nat.land a 0xfff ≤ 0xffc) :
    s.store_word a v = (.ok (), s.withMem (s.mem.write_u32 a v)) := by
  unfold Machine.store_word Machine.store_bytes Machine.translate_address
  rw [hb]
  rw [if_pos ha]
  rfl

/-- The reservation map with one hart's reservation removed (the state
clear_reservation leaves behind on success). -/
def clearRes (m : Mem) (core : Nat) : Mem :=
  { m with reservations := Function.update m.reservations core none }

/-- A physical word write never touches the reservation map. -/
theorem write_u32_reservations (m : Mem) (a v : Nat) :
    (m.write_u32 a v).reservations = m.reservations := by
  unfold Mem.write_u32
  split <;> rfl

/-- Claim C4 (reservations modelled from the spec): LR.W loads the word
at the target address into rd and installs the executing hart's
reservation on that address; SC.W succeeds iff the hart's reservation
equals the target address, in which case it stores rs2 there, writes 0
to rd and removes the reservation, and otherwise stores nothing and
writes 1 to rd; hence an immediately repeated SC.W by the same hart on
the same address fails.  Stated in Bare addressing mode with the target
word inside one page, so that the memory access itself cannot fault. -/
theorem lr_sc_w_reservation_protocol :
    (∀ (s : Machine) (word addr : Nat),
      s.mmu.addressing_mode = .none →
      Nat.land (u32ofI32 (s.x (parse_format_r word).rs1)) 0xfff ≤ 0xffc →
      (op_LR_W s word addr).1 = .ok ∧
      (op_LR_W s word addr).2.x (parse_format_r word).rd =
        i32ofU32 (s.mem.read_u32 (u32ofI32 (s.x (parse_format_r word).rs1))) ∧
      (op_LR_W s word addr).2.mem.reservations (s.read_csr_raw CSR_MHARTID_ADDRESS) =
        some (u32ofI32 (s.x (parse_format_r word).rs1))) ∧
    (∀ (s : Machine) (word addr : Nat),
      s.mmu.addressing_mode = .none →
      Nat.land (u32ofI32 (s.x (parse_format_r word).rs1)) 0xfff ≤ 0xffc →
      s.mem.reservations (s.read_csr_raw CSR_MHARTID_ADDRESS) =
        some (u32ofI32 (s.x (parse_format_r word).rs1)) →
      (op_SC_W s word addr).1 = .ok ∧
      (op_SC_W s word addr).2 =
        updX (s.withMem (Mem.write_u32
          (clearRes s.mem (s.read_csr_raw CSR_MHARTID_ADDRESS))
          (u32ofI32 (s.x (parse_format_r word).rs1))
          (u32ofI32 (s.x (parse_format_r word).rs2))))
          (parse_format_r word).rd 0 ∧
      (op_SC_W s word addr).2.x (parse_format_r word).rd = 0 ∧
      (op_SC_W s word addr).2.mem.reservations (s.read_csr_raw CSR_MHARTID_ADDRESS) = none) ∧
    (∀ (s : Machine) (word addr : Nat),
      s.mem.reservations (s.read_csr_raw CSR_MHARTID_ADDRESS) ≠
        some (u32ofI32 (s.x (parse_format_r word).rs1)) →
      (op_SC_W s word addr).1 = .ok ∧
      (op_SC_W s word addr).2 = updX s (parse_format_r word).rd 1 ∧
      (op_SC_W s word addr).2.x (parse_format_r word).rd = 1 ∧
      (op_SC_W s word addr).2.mem = s.mem) ∧
    (∀ (s : Machine) (word addr : Nat),
      s.mmu.addressing_mode = .none →
      Nat.land (u32ofI32 (s.x (parse_format_r word).rs1)) 0xfff ≤ 0xffc →
      s.mem.reservations (s.read_csr_raw CSR_MHARTID_ADDRESS) =
        some (u32ofI32 (s.x (parse_format_r word).rs1)) →
      (op_SC_W (op_SC_W s word addr).2 word addr).2.x (parse_format_r word).rd = 1 ∧
      (op_SC_W (op_SC_W s word addr).2 word addr).2.mem = (op_SC_W s word addr).2.mem) := by
  have hlr : ∀ (s : Machine) (word addr : Nat),
      s.mmu.addressing_mode = .none →
      Nat.land (u32ofI32 (s.x (parse_format_r word).rs1)) 0xfff ≤ 0xffc →
      (op_LR_W s word addr).1 = .ok ∧
      (op_LR_W s word addr).2.x (parse_format_r word).rd =
        i32ofU32 (s.mem.read_u32 (u32ofI32 (s.x (parse_format_r word).rs1))) ∧
      (op_LR_W s word addr).2.mem.reservations (s.read_csr_raw CSR_MHARTID_ADDRESS) =
        some (u32ofI32 (s.x (parse_format_r word).rs1)) := by
    intro s word addr hb ha
    simp only [op_LR_W]
    rw [load_word_bare s _ hb ha]
    refine ⟨rfl, ?_, ?_⟩
    · simp [updX, Machine.withMem]
    · simp [updX, Machine.withMem, Mem.reserve]
  have hok : ∀ (s : Machine) (word addr : Nat),
      s.mmu.addressing_mode = .none →
      Nat.land (u32ofI32 (s.x (parse_format_r word).rs1)) 0xfff ≤ 0xffc →
      s.mem.reservations (s.read_csr_raw CSR_MHARTID_ADDRESS) =
        some (u32ofI32 (s.x (parse_format_r word).rs1)) →
      (op_SC_W s word addr).1 = .ok ∧
      (op_SC_W s word addr).2 =
        updX (s.withMem (Mem.write_u32
          (clearRes s.mem (s.read_csr_raw CSR_MHARTID_ADDRESS))
          (u32ofI32 (s.x (parse_format_r word).rs1))
          (u32ofI32 (s.x (parse_format_r word).rs2))))
          (parse_format_r word).rd 0 ∧
      (op_SC_W s word addr).2.x (parse_format_r word).rd = 0 ∧
      (op_SC_W s word addr).2.mem.reservations (s.read_csr_raw CSR_MHARTID_ADDRESS) = none := by
    intro s word addr hb ha hres
    have hclear : s.mem.clear_reservation (s.read_csr_raw CSR_MHARTID_ADDRESS)
        (u32ofI32 (s.x (parse_format_r word).rs1)) =
        (true, clearRes s.mem (s.read_csr_raw CSR_MHARTID_ADDRESS)) := by
      unfold Mem.clear_reservation clearRes
      rw [if_pos hres]
    have hstep : (op_SC_W s word addr).2 =
        updX (s.withMem (Mem.write_u32
          (clearRes s.mem (s.read_csr_raw CSR_MHARTID_ADDRESS))
          (u32ofI32 (s.x (parse_format_r word).rs1))
          (u32ofI32 (s.x (parse_format_r word).rs2))))
          (parse_format_r word).rd 0 ∧
        (op_SC_W s word addr).1 = .ok := by
      simp only [op_SC_W, hclear, if_true]
      rw [store_word_bare (s.withMem (clearRes s.mem (s.read_csr_raw CSR_MHARTID_ADDRESS)))
        (u32ofI32 (s.x (parse_format_r word).rs1))
        (u32ofI32 ((s.withMem (clearRes s.mem (s.read_csr_raw CSR_MHARTID_ADDRESS))).x
          (parse_format_r word).rs2)) hb ha]
      exact ⟨rfl, rfl⟩
    refine ⟨hstep.2, hstep.1, ?_, ?_⟩
    · rw [hstep.1]
      simp [updX]
    · rw [hstep.1]
      simp [updX, Machine.withMem, write_u32_reservations, clearRes]
  have hfail : ∀ (s : Machine) (word addr : Nat),
      s.mem.reservations (s.read_csr_raw CSR_MHARTID_ADDRESS) ≠
        some (u32ofI32 (s.x (parse_format_r word).rs1)) →
      (op_SC_W s word addr).1 = .ok ∧
      (op_SC_W s word addr).2 = updX s (parse_format_r word).rd 1 ∧
      (op_SC_W s word addr).2.x (parse_format_r word).rd = 1 ∧
      (op_SC_W s word addr).2.mem = s.mem := by
    intro s word addr hres
    have hclear : s.mem.clear_reservation (s.read_csr_raw CSR_MHARTID_ADDRESS)
        (u32ofI32 (s.x (parse_format_r word).rs1)) = (false, s.mem) := by
      unfold Mem.clear_reservation
      rw [if_neg hres]
    have hstep : (op_SC_W s word addr).2 = updX s (parse_format_r word).rd 1 ∧
        (op_SC_W s word addr).1 = .ok := by
      simp only [op_SC_W, hclear]
      exact ⟨rfl, rfl⟩
    refine ⟨hstep.2, hstep.1, ?_, ?_⟩
    · rw [hstep.1]
      simp [updX]
    · rw [hstep.1]
      simp [updX]
  refine ⟨hlr, hok, hfail, ?_⟩
  intro s word addr hb ha hres
  obtain ⟨-, hstate, -, hresnone⟩ := hok s word addr hb ha hres
  have hres1 : (op_SC_W s word addr).2.mem.reservations
      ((op_SC_W s word addr).2.read_csr_raw CSR_MHARTID_ADDRESS) ≠
      some (u32ofI32 ((op_SC_W s word addr).2.x (parse_format_r word).rs1)) := by
    have hcsr : (op_SC_W s word addr).2.read_csr_raw CSR_MHARTID_ADDRESS =
        s.read_csr_raw CSR_MHARTID_ADDRESS := by
      rw [hstate]
      rfl
    rw [hcsr, hresnone]
    intro hcontra
    exact Option.noConfusion hcontra
  obtain ⟨-, -, hrd1, hmem1⟩ := hfail (op_SC_W s word addr).2 word addr hres1
  exact ⟨hrd1, hmem1⟩

/-- A machine for the LR/SC scenario: one mapped page, the word 42 at
0x8000_0010, x1 pointing there and x2 = 7, hart id 0, Bare mode. -/
def machineLRSC : Machine :=
  { clock := 0, privilege_mode := .machine, wfi := false
    x := fun i => if i = 1 then 0x80000010 else if i = 2 then 7 else 0
    pc := 0, csr := fun _ => 0
    mmu := { ppn := 0, addressing_mode := .none, privilege_mode := .machine, mstatus := 0 }
    mem := { pages := fun p => p == 0x80000000
             bytes := fun a => if a = 0x80000010 then 42 else 0
             reservations := fun _ => none }
    sysc := fun _ => .cont }

/-- The machine after the LR.W of the witness scenario. -/
def machineAfterLR : Machine := (op_LR_W machineLRSC ((1 <<< 15) ||| (3 <<< 7)) 0).2

/-- Witness for C4: LR.W at x1 loads 42 into x3 and installs the
reservation; the following SC.W writes 0 to x3 (success); repeating the
same SC.W immediately writes 1 to x3 (failure). -/
theorem lr_sc_w_reservation_protocol_witness :
    (op_LR_W machineLRSC ((1 <<< 15) ||| (3 <<< 7)) 0).2.x 3 = 42 ∧
    (op_SC_W machineAfterLR ((2 <<< 20) ||| (1 <<< 15) ||| (3 <<< 7)) 0).2.x 3 = 0 ∧
    (op_SC_W (op_SC_W machineAfterLR ((2 <<< 20) ||| (1 <<< 15) ||| (3 <<< 7)) 0).2
      ((2 <<< 20) ||| (1 <<< 15) ||| (3 <<< 7)) 0).2.x 3 = 1 := by
  refine ⟨?_, ?_, ?_⟩
  · have h1 := (lr_sc_w_reservation_protocol.1 machineLRSC ((1 <<< 15) ||| (3 <<< 7)) 0
      (by decide) (by decide)).2.1
    have hrd : (parse_format_r ((1 <<< 15) ||| (3 <<< 7))).rd = 3 := by decide
    rw [hrd] at h1
    rw [h1]
    decide
  · exact (lr_sc_w_reservation_protocol.2.1 machineAfterLR
      ((2 <<< 20) ||| (1 <<< 15) ||| (3 <<< 7)) 0 (by decide) (by decide) (by decide)).2.2.1
  · exact (lr_sc_w_reservation_protocol.2.2.2 machineAfterLR
      ((2 <<< 20) ||| (1 <<< 15) ||| (3 <<< 7)) 0 (by decide) (by decide) (by decide)).1

/-- A small process memory: root page table at 0x8000_1000 (allocated),
two free physical pages, allocation cursor at 0x4000_0000. -/
def cexXMem : XMemory :=
  { base := 0x80000000
    mem := { pages := fun p => p == 0x80001000 || p == 0x80002000 || p == 0x80003000
             bytes := fun _ => 0
             reservations := fun _ => none }
    allocated_pages := [0x80001000]
    free_pages := [0x80002000, 0x80003000]
    heap_start := 0x60000000, heap_size := 0
    allocation_previous := 0x40000000
    l1_pt := 0x80001000
    satp := 0x800a0001
    connections := [] }

/-- Like cexXMem but with a third free physical page, enough for a
two-page region (one level-0 table plus two data pages need three). -/
def okXMem : XMemory :=
  { base := 0x80000000
    mem := { pages := fun p =>
               p == 0x80001000 || p == 0x80002000 || p == 0x80003000 || p == 0x80004000
             bytes := fun _ => 0
             reservations := fun _ => none }
    allocated_pages := [0x80001000]
    free_pages := [0x80002000, 0x80003000, 0x80004000]
    heap_start := 0x60000000, heap_size := 0
    allocation_previous := 0x40000000
    l1_pt := 0x80001000
    satp := 0x800a0001
    connections := [] }

/-- Claim C8 (amended): allocate_virt_region scans from the rolling
cursor for a run of currently-unmapped pages, ensures (maps) each page of
the run, advances the cursor past the run plus one guard page, and
returns the start address; it has no failure return at all — the Rust
Option result is always Some — and when the physical pool runs dry
partway through the run the allocator panics, with no rollback.  The
concrete conjuncts show a successful two-page allocation: start
0x4000_0000, cursor moved to 0x4000_3000, both pages mapped. -/
theorem allocate_virt_region_no_rollback :
    (∀ (m : XMemory) (size fuel : Nat),
      (m.allocate_virt_region size fuel).1 ≠ AllocRes.ok none) ∧
    (okXMem.allocate_virt_region 0x2000 4).1 = .ok (some 0x40000000) ∧
    (okXMem.allocate_virt_region 0x2000 4).2.allocation_previous = 0x40003000 ∧
    ((okXMem.allocate_virt_region 0x2000 4).2.virt_to_phys 0x40000000).isSome = true ∧
    ((okXMem.allocate_virt_region 0x2000 4).2.virt_to_phys 0x40001000).isSome = true := by
  refine ⟨?_, by decide, by decide, by decide, by decide⟩
  intro m size fuel
  simp only [XMemory.allocate_virt_region]
  rcases hf : m.find_free_run m.allocation_previous size fuel with _ | start1
  · simp
  · rcases he : m.ensure_run (pagesOfRun start1 size) with ⟨r, m1⟩
    cases r <;> simp [he]

/-- Witness for C8 (amended), instantiating the no-failure-return part at
a concrete state. -/
theorem allocate_virt_region_no_rollback_witness :
    (okXMem.allocate_virt_region 0x2000 4).1 ≠ AllocRes.ok none :=
  allocate_virt_region_no_rollback.1 okXMem 0x2000 4

/-- Counterexample to C8 as stated: starting from cexXMem (two free
physical pages), a three-page request finds the run at 0x4000_0000 and
starts mapping it, but the pool runs dry partway: the call panics instead
of returning failure, and the pages allocated so far (0x8000_2000 as a
level-0 table and 0x8000_3000 as the first data page) are NOT rolled back
to the free set — the free list ends empty. -/
theorem allocate_virt_region_rollback_counterexample :
    (cexXMem.allocate_virt_region 0x3000 4).1 = .panicked ∧
    (cexXMem.allocate_virt_region 0x3000 4).2.allocated_pages.contains 0x80003000 = true ∧
    (cexXMem.allocate_virt_region 0x3000 4).2.free_pages = [] := by
  decide

/-- Claim C9: in the SV32 walk the accessed/dirty write-back is performed
before the R/W/X permission check.  Whenever the walk reaches a valid
leaf PTE that needs an A/D update (A = 0, or a Write access with D = 0)
and whose permission bits then deny the requested access, the walk
returns the page-fault error, but the PTE in memory has already been
rewritten with A = 1 (and D = 1 for a Write access). -/
theorem ad_update_before_permission_check :
    ∀ (m : Mem) (v_address level parent_ppn : Nat) (vpns : Nat → Nat)
      (access_type : MemoryAccessType),
      Nat.land (m.read_u32 (parent_ppn * 4096 + vpns level * 4)) 1 = 1 →
      ¬(Nat.land (m.read_u32 (parent_ppn * 4096 + vpns level * 4) >>> 1) 1 = 0 ∧
        Nat.land (m.read_u32 (parent_ppn * 4096 + vpns level * 4) >>> 2) 1 = 1) →
      ¬(Nat.land (m.read_u32 (parent_ppn * 4096 + vpns level * 4) >>> 1) 1 = 0 ∧
        Nat.land (m.read_u32 (parent_ppn * 4096 + vpns level * 4) >>> 3) 1 = 0) →
      (Nat.land (m.read_u32 (parent_ppn * 4096 + vpns level * 4) >>> 6) 1 = 0 ∨
        (access_type = .write ∧
          Nat.land (m.read_u32 (parent_ppn * 4096 + vpns level * 4) >>> 7) 1 = 0)) →
      (match access_type with
        | .execute => Nat.land (m.read_u32 (parent_ppn * 4096 + vpns level * 4) >>> 3) 1 = 0
        | .read => Nat.land (m.read_u32 (parent_ppn * 4096 + vpns level * 4) >>> 1) 1 = 0
        | .write => Nat.land (m.read_u32 (parent_ppn * 4096 + vpns level * 4) >>> 2) 1 = 0
        | .dontCare => False) →
      (traverse_page m v_address level parent_ppn vpns access_type).1 = .err ∧
      (traverse_page m v_address level parent_ppn vpns access_type).2 =
        m.write_u32 (parent_ppn * 4096 + vpns level * 4)
          (Nat.lor (m.read_u32 (parent_ppn * 4096 + vpns level * 4))
            (Nat.lor 0x40 (if access_type = .write then 0x80 else 0))) := by
  intro m v_address level parent_ppn vpns access_type hv hnrw hleaf had hdeny
  have hvalidcase : ¬(Nat.land (m.read_u32 (parent_ppn * 4096 + vpns level * 4)) 1 = 0 ∨
      (Nat.land (m.read_u32 (parent_ppn * 4096 + vpns level * 4) >>> 1) 1 = 0 ∧
        Nat.land (m.read_u32 (parent_ppn * 4096 + vpns level * 4) >>> 2) 1 = 1)) := by
    intro hcon
    rcases hcon with hz | hrw
    · omega
    · exact hnrw hrw
  cases access_type with
  | execute =>
    have hstep : traverse_page m v_address level parent_ppn vpns .execute =
        (.err, m.write_u32 (parent_ppn * 4096 + vpns level * 4)
          (Nat.lor (m.read_u32 (parent_ppn * 4096 + vpns level * 4))
            (Nat.lor 0x40 (if MemoryAccessType.execute = .write then 0x80 else 0)))) := by
      rw [traverse_page.eq_def]
      conv_lhs => zeta
      rw [if_neg hvalidcase, if_neg hleaf, if_pos had, if_pos (And.intro rfl hdeny)]
    exact ⟨by rw [hstep], by rw [hstep]⟩
  | read =>
    have hstep : traverse_page m v_address level parent_ppn vpns .read =
        (.err, m.write_u32 (parent_ppn * 4096 + vpns level * 4)
          (Nat.lor (m.read_u32 (parent_ppn * 4096 + vpns level * 4))
            (Nat.lor 0x40 (if MemoryAccessType.read = .write then 0x80 else 0)))) := by
      rw [traverse_page.eq_def]
      conv_lhs => zeta
      rw [if_neg hvalidcase, if_neg hleaf, if_pos had,
        if_neg (by simp : ¬(MemoryAccessType.read = .execute ∧
          Nat.land (m.read_u32 (parent_ppn * 4096 + vpns level * 4) >>> 3) 1 = 0)),
        if_pos (And.intro rfl hdeny)]
    exact ⟨by rw [hstep], by rw [hstep]⟩
  | write =>
    have hstep : traverse_page m v_address level parent_ppn vpns .write =
        (.err, m.write_u32 (parent_ppn * 4096 + vpns level * 4)
          (Nat.lor (m.read_u32 (parent_ppn * 4096 + vpns level * 4))
            (Nat.lor 0x40 (if MemoryAccessType.write = .write then 0x80 else 0)))) := by
      rw [traverse_page.eq_def]
      conv_lhs => zeta
      rw [if_neg hvalidcase, if_neg hleaf, if_pos had,
        if_neg (by simp : ¬(MemoryAccessType.write = .execute ∧
          Nat.land (m.read_u32 (parent_ppn * 4096 + vpns level * 4) >>> 3) 1 = 0)),
        if_neg (by simp : ¬(MemoryAccessType.write = .read ∧
          Nat.land (m.read_u32 (parent_ppn * 4096 + vpns level * 4) >>> 1) 1 = 0)),
        if_pos (And.intro rfl hdeny)]
    exact ⟨by rw [hstep], by rw [hstep]⟩
  | dontCare => exact absurd hdeny (by simp)

/-- A page-table page at 0x8000_1000 whose first PTE is 0b1001: valid,
execute-only leaf with A = 0. -/
def memPte : Mem :=
  { pages := fun p => p == 0x80001000
    bytes := fun a => if a = 0x80001000 then 9 else 0
    reservations := fun _ => none }

/-- Witness for C9: the read access through the execute-only leaf faults,
and the PTE has been rewritten from 0b0000_1001 to 0b0100_1001 (A set). -/
theorem ad_update_before_permission_check_witness :
    (traverse_page memPte 0 0 0x80001 (fun _ => 0) .read).1 = .err ∧
    (traverse_page memPte 0 0 0x80001 (fun _ => 0) .read).2.read_u32 0x80001000 = 0x49 := by
  have h := ad_update_before_permission_check memPte 0 0 0x80001 (fun _ => 0) .read
    (by decide) (by decide) (by decide) (by decide) (by decide)
  refine ⟨h.1, ?_⟩
  rw [h.2]
  decide

/-- Claim C10: get_service panics for every four-word name other than the
three built-in services (it never returns None), so the Connect syscall's
fallback branch that answers with connection id 0 is unreachable, and
Connect never produces an Error/ServerNotFound result for an unknown
name — it either panics or returns a fresh nonzero connection id. -/
theorem get_service_panics_for_unknown_names :
    (∀ n0 n1 n2 n3 : Nat,
      ¬(n0 = 0x6b636974 ∧ n1 = 0x656d6974 ∧ n2 = 0x65732d72 ∧ n3 = 0x72657672) →
      ¬(n0 = 0x73756f78 ∧ n1 = 0x676f6c2d ∧ n2 = 0x7265732d ∧ n3 = 0x20726576) →
      ¬(n0 = 0x73756f78 ∧ n1 = 0x6d616e2d ∧ n2 = 0x65732d65 ∧ n3 = 0x72657672) →
      get_service n0 n1 n2 n3 = .panicked) ∧
    (∀ n0 n1 n2 n3 : Nat, get_service n0 n1 n2 n3 ≠ .ok none) ∧
    (∀ (m : XMemory) (n0 n1 n2 n3 : Nat),
      (m.syscall_connect n0 n1 n2 n3).1 ≠
        .regs [RESULT_CONNECTION_ID, 0, 0, 0, 0, 0, 0, 0] ∧
      (m.syscall_connect n0 n1 n2 n3).1 ≠ .regs [1, 9, 0, 0, 0, 0, 0, 0]) := by
  have hnone : ∀ n0 n1 n2 n3 : Nat, get_service n0 n1 n2 n3 ≠ .ok none := by
    intro n0 n1 n2 n3 h
    unfold get_service at h
    split_ifs at h <;> simp_all
  refine ⟨?_, hnone, ?_⟩
  · intro n0 n1 n2 n3 h1 h2 h3
    unfold get_service
    rw [if_neg h1, if_neg h2, if_neg h3]
  · intro m n0 n1 n2 n3
    unfold XMemory.syscall_connect
    rcases hget : get_service n0 n1 n2 n3 with svc? | _
    · rcases svc? with _ | svc
      · exact absurd hget (hnone n0 n1 n2 n3)
      · constructor
        · intro hcon
          simp only [SyscallOut.regs.injEq, List.cons.injEq] at hcon
          have : ((m.connections.length + 1 : Nat) : Int) = 0 := hcon.2.1
          omega
        · intro hcon
          simp only [SyscallOut.regs.injEq, List.cons.injEq, RESULT_CONNECTION_ID] at hcon
          omega
    · exact ⟨by simp, by simp⟩

/-- Witness for C10 at the all-zero name (not a built-in service): the
lookup panics, and Connect on cexXMem neither answers connection id 0 nor
a ServerNotFound error. -/
theorem get_service_panics_for_unknown_names_witness :
    get_service 0 0 0 0 = .panicked ∧
    (cexXMem.syscall_connect 0 0 0 0).1 ≠
      .regs [RESULT_CONNECTION_ID, 0, 0, 0, 0, 0, 0, 0] ∧
    (cexXMem.syscall_connect 0 0 0 0).1 ≠ .regs [1, 9, 0, 0, 0, 0, 0, 0] := by
  refine ⟨?_, ?_⟩
  · exact get_service_panics_for_unknown_names.1 0 0 0 0 (by decide) (by decide) (by decide)
  · exact get_service_panics_for_unknown_names.2.2 cexXMem 0 0 0 0

end Yove
